import Mathlib

/-!
Shallow embedding of the rogiso runtime core (a NaN-boxed value system with a
region/slot heap, symbol scopes, field shortcuts, a reentrant layout lock and a
tri-color collector) together with proofs settling the specification claims.

Conventions used throughout the embedding:
* Rust machine integers are modelled as `Nat` (or `Int` for signed inputs) with
  explicit `% 2^w` reductions where the width matters; `x >> k` is rendered as
  `x / 2^k`, `x & (2^k - 1)` as `x % 2^k`, and `(x >> k) & 1` as `x / 2^k % 2`.
* Rust `HashMap`/`HashSet` fields are rendered as association lists / lists.
* `Error::new(kind, message)` is rendered as the `ErrorType` alone; the message
  strings carry no behavior.
* Fallible Rust functions returning `Result` are rendered as `Except ErrorType`.
-/

namespace Rogiso

/-- The error kinds of `src/base/error.rs` that the embedded operations use. -/
inductive ErrorType where
  | fatalError
  | outOfSpace
  | typeNotMatch
  | integerOutOfRange
  | mutatingSealedProperty
  | mutatingReadOnlyProperty
deriving DecidableEq, Repr

deriving instance DecidableEq for Except

/-- The primitive type enumeration of `src/base/primitive_type.rs`. -/
inductive PrimitiveType where
  | undefined
  | null
  | boolean
  | integer
  | float
  | symbol
  | text
  | list
  | tuple
  | object
deriving DecidableEq, Repr

/-- A property symbol (`src/base/symbol.rs`, `Symbol`): a `u32` id. -/
structure Symbol where
  id : Nat
deriving DecidableEq, Repr

/-- A 64-bit NaN-boxed value (`src/base/value.rs`, `Value`): the `u64` bit
pattern obtained by transmuting the stored `f64`. -/
structure Value where
  data : Nat
deriving DecidableEq, Repr

/-- `NAN_PREFIX = 0x7ff8` of `value.rs` (the name is adapted for this file). -/
def tagNan : Nat := 0x7ff8

/-- `NIL_OR_BOOLEAN_PREFIX = NAN_PREFIX | 0b001`. -/
def tagNilOrBoolean : Nat := 0x7ff9

/-- `INTEGER_PREFIX = NAN_PREFIX | 0b010`. -/
def tagInteger : Nat := 0x7ffa

/-- `TEXT_PREFIX = NAN_PREFIX | 0b011`. -/
def tagText : Nat := 0x7ffb

/-- `SYMBOL_PREFIX = NAN_PREFIX | 0b100`. -/
def tagSymbolKind : Nat := 0x7ffc

/-- `TUPLE_PREFIX = NAN_PREFIX | 0b101`. -/
def tagTuple : Nat := 0x7ffd

/-- `LIST_PREFIX = NAN_PREFIX | 0b110`. -/
def tagList : Nat := 0x7ffe

/-- `OBJECT_PREFIX = NAN_PREFIX | 0b111`. -/
def tagObject : Nat := 0x7fff

/-- `UNDEFINED_SUFFIX = 0x0`. -/
def suffixUndefined : Nat := 0x0

/-- `NULL_SUFFIX = 0x1`. -/
def suffixNull : Nat := 0x1

/-- `NO_SUFFIX = 0x2`. -/
def suffixNo : Nat := 0x2

/-- `YES_SUFFIX = 0x3`. -/
def suffixYes : Nat := 0x3

/-- IEEE-754 `f64::is_nan` on the 64-bit pattern: all exponent bits (52..62)
set and a non-zero mantissa (bits 0..51).  This is what `self.data.is_nan()`
computes in `Value::get_primitive_type`. -/
def bitsIsNan (data : Nat) : Bool :=
  (data / 2 ^ 52 % 2 ^ 11 = 0x7ff) && (data % 2 ^ 52 ≠ 0)

namespace Value

/-- `Value::get_data`: the `u64` view of the stored bits. -/
def getData (v : Value) : Nat := v.data

/-- `Value::get_primitive_type` of `value.rs` lines 119-147: non-NaN patterns
are floats, otherwise the high 16 bits (`data >> 48`) select the tag and for
`NIL_OR_BOOLEAN_PREFIX` the low byte (`data & 0xff`) refines it.  The Rust
`match data >> 48` over prefix constants is rendered as an `if` chain over the
same constants in the same order. -/
def getPrimitiveType (v : Value) : PrimitiveType :=
  if ¬ bitsIsNan v.data then .float
  else
    let p := v.data / 2 ^ 48
    if p = tagNan then .float
    else if p = tagNilOrBoolean then
      let s := v.data % 256
      if s = suffixUndefined then .undefined
      else if s = suffixNull then .null
      else if s = suffixNo then .boolean
      else if s = suffixYes then .boolean
      else .undefined
    else if p = tagInteger then .integer
    else if p = tagText then .text
    else if p = tagSymbolKind then .symbol
    else if p = tagList then .list
    else if p = tagTuple then .tuple
    else if p = tagObject then .object
    else .float

/-- `Value::make_null`: `NIL_OR_BOOLEAN_PREFIX << 48 | NULL_SUFFIX`. -/
def makeNull : Value := ⟨tagNilOrBoolean * 2 ^ 48 + suffixNull⟩

/-- `Value::make_undefined`: `NIL_OR_BOOLEAN_PREFIX << 48 | UNDEFINED_SUFFIX`. -/
def makeUndefined : Value := ⟨tagNilOrBoolean * 2 ^ 48 + suffixUndefined⟩

/-- `Value::make_boolean`: yes/no suffix under the nil-or-boolean prefix. -/
def makeBoolean (b : Bool) : Value :=
  if b then ⟨tagNilOrBoolean * 2 ^ 48 + suffixYes⟩
  else ⟨tagNilOrBoolean * 2 ^ 48 + suffixNo⟩

/-- `Value::make_symbol`: `SYMBOL_PREFIX << 48 | symbol.get_id()`. -/
def makeSymbol (s : Symbol) : Value := ⟨tagSymbolKind * 2 ^ 48 + s.id % 2 ^ 32⟩

/-- `Value::make_cardinal`: `INTEGER_PREFIX << 48 | (value as u64)` for a
`u32` input (reduced `% 2^32` to express the `u32` width). -/
def makeCardinal (u : Nat) : Value := ⟨tagInteger * 2 ^ 48 + u % 2 ^ 32⟩

/-- `Value::make_integer`: the `i32` is transmuted to its two's-complement
`u32` image (`(x % 2^32).toNat` on the mathematical integer) and bit 32 is set
for negative inputs. -/
def makeInteger (x : Int) : Value :=
  ⟨tagInteger * 2 ^ 48 + (if x < 0 then 2 ^ 32 else 0) + (x % 2 ^ 32).toNat⟩

/-- `Value::make_text`: `TEXT_PREFIX << 48 | region << 16 | slot`
(`region`/`slot` are `u32` in the source; the low 48 bits hold them). -/
def makeText (region slot : Nat) : Value :=
  ⟨tagText * 2 ^ 48 + region % 2 ^ 32 * 2 ^ 16 + slot % 2 ^ 16⟩

/-- `Value::make_list`: like `make_text` under `LIST_PREFIX`. -/
def makeList (region slot : Nat) : Value :=
  ⟨tagList * 2 ^ 48 + region % 2 ^ 32 * 2 ^ 16 + slot % 2 ^ 16⟩

/-- `Value::make_tuple`: like `make_text` under `TUPLE_PREFIX`. -/
def makeTuple (region slot : Nat) : Value :=
  ⟨tagTuple * 2 ^ 48 + region % 2 ^ 32 * 2 ^ 16 + slot % 2 ^ 16⟩

/-- `Value::make_object`: like `make_text` under `OBJECT_PREFIX`. -/
def makeObject (region slot : Nat) : Value :=
  ⟨tagObject * 2 ^ 48 + region % 2 ^ 32 * 2 ^ 16 + slot % 2 ^ 16⟩

/-- `Value::is_null`. -/
def isNull (v : Value) : Bool := v.getPrimitiveType = .null

/-- `Value::is_undefined`. -/
def isUndefined (v : Value) : Bool := v.getPrimitiveType = .undefined

/-- `Value::is_boolean`. -/
def isBoolean (v : Value) : Bool := v.getPrimitiveType = .boolean

/-- `Value::is_float`. -/
def isFloat (v : Value) : Bool := v.getPrimitiveType = .float

/-- `Value::is_symbol`. -/
def isSymbol (v : Value) : Bool := v.getPrimitiveType = .symbol

/-- `Value::is_list` of `value.rs` lines 357-365, verbatim: the source match
returns `true` for the `Boolean` arm as well as the `List` arm. -/
def isList (v : Value) : Bool :=
  match v.getPrimitiveType with
  | .boolean => true
  | .list => true
  | _ => false

/-- `Value::is_integer`. -/
def isInteger (v : Value) : Bool := v.getPrimitiveType = .integer

/-- `Value::is_text`. -/
def isText (v : Value) : Bool := v.getPrimitiveType = .text

/-- `Value::is_tuple`. -/
def isTuple (v : Value) : Bool := v.getPrimitiveType = .tuple

/-- `Value::is_object`. -/
def isObject (v : Value) : Bool := v.getPrimitiveType = .object

/-- `Value::is_slotted`: text, list, tuple and object values address slots. -/
def isSlotted (v : Value) : Bool :=
  match v.getPrimitiveType with
  | .text => true
  | .list => true
  | .tuple => true
  | .object => true
  | _ => false

/-- `Value::is_cardinal`: an integer whose bit 32 is clear or whose bit 31 is
clear (`((data >> 32) & 1 == 0) || ((data >> 31) & 1 == 0)`). -/
def isCardinal (v : Value) : Bool :=
  match v.getPrimitiveType with
  | .integer => (v.data / 2 ^ 32 % 2 = 0) || (v.data / 2 ^ 31 % 2 = 0)
  | _ => false

/-- `Value::extract_symbol` with a `default`: the low 32 bits as a symbol id
when the tag is `Symbol`. -/
def extractSymbol (v : Value) (dft : Symbol) : Symbol :=
  match v.getPrimitiveType with
  | .symbol => ⟨v.data % 2 ^ 32⟩
  | _ => dft

/-- `Value::get_integer_data` of `value.rs` lines 687-703: on an `Integer`
value the low 32 bits are read back as an `i32` (two's complement); the read
succeeds when bit 32 is set (`(data >> 32) & 1 == 1`) or the signed value is
non-negative, and fails `IntegerOutOfRange` otherwise; non-integer tags fail
`TypeNotMatch`. -/
def getIntegerData (v : Value) : Except ErrorType Int :=
  match v.getPrimitiveType with
  | .integer =>
    let low : Nat := v.data % 2 ^ 32
    let value : Int := if low < 2 ^ 31 then (low : Int) else (low : Int) - 2 ^ 32
    if (v.data / 2 ^ 32 % 2 = 1) ∨ 0 ≤ value then .ok value
    else .error .integerOutOfRange
  | _ => .error .typeNotMatch

/-- `Value::get_cardinal_data` of `value.rs` lines 708-721: on an `Integer`
value the low 32 bits are returned when bit 32 is clear, and the read fails
`IntegerOutOfRange` otherwise; non-integer tags fail `TypeNotMatch`. -/
def getCardinalData (v : Value) : Except ErrorType Nat :=
  match v.getPrimitiveType with
  | .integer =>
    if v.data / 2 ^ 32 % 2 = 0 then .ok (v.data % 2 ^ 32)
    else .error .integerOutOfRange
  | _ => .error .typeNotMatch

/-- `Value::get_region_id`: bits 16..47 of a slotted value. -/
def getRegionId (v : Value) : Except ErrorType Nat :=
  if v.isSlotted then .ok (v.data / 2 ^ 16 % 2 ^ 32)
  else .error .typeNotMatch

/-- `Value::get_region_slot`: the low 16 bits of a slotted value. -/
def getRegionSlot (v : Value) : Except ErrorType Nat :=
  if v.isSlotted then .ok (v.data % 2 ^ 16)
  else .error .typeNotMatch

end Value


/-! ### Association-list helpers

Rust `HashMap`/`HashSet` fields are modelled as association lists / lists with
unordered-map semantics: `lookupA`/`insertA`/`removeA` mirror `get`/`insert`/
`remove`, and `memL`/`insertL`/`removeL` mirror the set operations. -/

/-- `HashMap::get`. -/
def lookupA {α β : Type} [DecidableEq α] : List (α × β) → α → Option β
  | [], _ => none
  | (k, v) :: rest, key => if k = key then some v else lookupA rest key

/-- `HashMap::remove`. -/
def removeA {α β : Type} [DecidableEq α] (l : List (α × β)) (key : α) :
    List (α × β) :=
  l.filter (fun kv => kv.1 ≠ key)

/-- `HashMap::insert` (replacing any previous binding of the key). -/
def insertA {α β : Type} [DecidableEq α] (l : List (α × β)) (key : α) (v : β) :
    List (α × β) :=
  (key, v) :: removeA l key

/-- `HashSet::contains` / `get(..).is_some()`. -/
def memL {α : Type} [DecidableEq α] (l : List α) (a : α) : Bool := a ∈ l

/-- `HashSet::insert`. -/
def insertL {α : Type} [DecidableEq α] (l : List α) (a : α) : List α :=
  if memL l a then l else a :: l

/-- `HashSet::remove`. -/
def removeL {α : Type} [DecidableEq α] (l : List α) (a : α) : List α :=
  l.filter (fun b => b ≠ a)

/-! ### Symbol scopes (`src/base/symbol.rs`)

String keys of `get_text_symbol` are abstracted as `Nat` key identifiers
(distinct naturals stand for distinct interning strings); the behavior under
scrutiny never inspects the text itself.  The shared `SymbolIdGenerator` is
modelled by the per-scope `nextId` counter (it starts at 1 and `generate`
returns the current value and increments). -/

/-- `SymbolRecord`: what a symbol was interned from. -/
inductive SymbolRecord where
  | textSymbol (text : Nat)
  | valueSymbol (value : Value)
deriving DecidableEq, Repr

/-- `SymbolScope`: the maps of `symbol.rs` lines 41-50. -/
structure SymbolScope where
  nextId : Nat
  textSymbols : List (Nat × Symbol)
  valueSymbols : List (Value × Symbol)
  symbolRecords : List (Symbol × SymbolRecord)
  symbolReferences : List (Symbol × Nat)
  symbolNursery : List Symbol
deriving DecidableEq, Repr

namespace SymbolScope

/-- `SymbolScope::new` (with a fresh generator). -/
def new : SymbolScope := ⟨1, [], [], [], [], []⟩

/-- `SymbolScope::get_symbol_record`. -/
def getSymbolRecord (sc : SymbolScope) (s : Symbol) : Option SymbolRecord :=
  lookupA sc.symbolRecords s

/-- `SymbolScope::get_text_symbol`: return the interned symbol for the key, or
intern a fresh one (inserting it into the records and the nursery). -/
def getTextSymbol (sc : SymbolScope) (text : Nat) : Symbol × SymbolScope :=
  match lookupA sc.textSymbols text with
  | some result => (result, sc)
  | none =>
    let result : Symbol := ⟨sc.nextId⟩
    (result,
      { sc with
        nextId := sc.nextId + 1
        textSymbols := insertA sc.textSymbols text result
        symbolRecords := insertA sc.symbolRecords result (.textSymbol text)
        symbolNursery := insertL sc.symbolNursery result })

/-- `SymbolScope::get_value_symbol`: like `get_text_symbol`, keyed by `Value`. -/
def getValueSymbol (sc : SymbolScope) (value : Value) : Symbol × SymbolScope :=
  match lookupA sc.valueSymbols value with
  | some result => (result, sc)
  | none =>
    let result : Symbol := ⟨sc.nextId⟩
    (result,
      { sc with
        nextId := sc.nextId + 1
        valueSymbols := insertA sc.valueSymbols value result
        symbolRecords := insertA sc.symbolRecords result (.valueSymbol value)
        symbolNursery := insertL sc.symbolNursery result })

/-- `SymbolScope::add_symbol_reference` of `symbol.rs` lines 130-145: bump the
count (starting from 0) and take the symbol out of the nursery; always `Ok`. -/
def addSymbolReference (sc : SymbolScope) (s : Symbol) :
    Except ErrorType SymbolScope :=
  let count := (lookupA sc.symbolReferences s).getD 0
  .ok { sc with
        symbolReferences := insertA sc.symbolReferences s (count + 1)
        symbolNursery := removeL sc.symbolNursery s }

/-- `SymbolScope::remove_symbol_reference` of `symbol.rs` lines 147-166: fails
`FatalError` when no count is recorded; a count of 1 deletes the entry. -/
def removeSymbolReference (sc : SymbolScope) (s : Symbol) :
    Except ErrorType SymbolScope :=
  match lookupA sc.symbolReferences s with
  | none => .error .fatalError
  | some count =>
    if count = 1 then
      .ok { sc with symbolReferences := removeA sc.symbolReferences s }
    else
      .ok { sc with symbolReferences := insertA sc.symbolReferences s (count - 1) }

/-- `SymbolScope::recycle_symbol` of `symbol.rs` lines 168-203: fail while the
symbol sits in the nursery, while a reference count is recorded, or when no
record exists; otherwise drop the interning entry and the record. -/
def recycleSymbol (sc : SymbolScope) (s : Symbol) :
    Except ErrorType SymbolScope :=
  if memL sc.symbolNursery s then .error .fatalError
  else
    match lookupA sc.symbolReferences s with
    | some _ => .error .fatalError
    | none =>
      match lookupA sc.symbolRecords s with
      | some record =>
        let sc' :=
          match record with
          | .textSymbol text => { sc with textSymbols := removeA sc.textSymbols text }
          | .valueSymbol value =>
            { sc with valueSymbols := removeA sc.valueSymbols value }
        .ok { sc' with symbolRecords := removeA sc'.symbolRecords s }
      | none => .error .fatalError

end SymbolScope

/-! ### Field templates, shortcuts and tokens (`src/field_shortcuts.rs`)

The source shares one `Arc<FieldTemplate>` between a `FieldShortcuts` and its
users; the embedding stores the template state inside the shortcuts record, so
template mutations are expressed as functions on `FieldTemplate` values and a
`FieldShortcuts` is read against its embedded template. -/

/-- `MAX_SHORTCUTS_SIZE = 26`. -/
def maxShortcutsSize : Nat := 26

/-- `FieldTemplate`: id, `u16` version, used-index bitmap and symbol map. -/
structure FieldTemplate where
  id : Nat
  version : Nat
  bitmap : Nat
  fields : List (Symbol × Nat)
deriving DecidableEq, Repr

namespace FieldTemplate

/-- `FieldTemplate::new`. -/
def new (id : Nat) : FieldTemplate := ⟨id, 1, 0, []⟩

/-- `FieldTemplate::get_version`. -/
def getVersion (t : FieldTemplate) : Nat := t.version

/-- `FieldTemplate::get_symbol_index`. -/
def getSymbolIndex (t : FieldTemplate) (s : Symbol) : Option Nat :=
  lookupA t.fields s

/-- The free-index scan of `FieldTemplate::add_symbol`:
`while ((bitmap >> index) & 1 == 1) && (index < 64) { index += 1 }`,
rendered with explicit fuel (64 steps bound the loop). -/
def findFreeIndex (bitmap : Nat) : Nat → Nat → Nat
  | 0, index => index
  | fuel + 1, index =>
    if (bitmap / 2 ^ index % 2 = 1) && (index < 64) then
      findFreeIndex bitmap fuel (index + 1)
    else
      index

/-- `FieldTemplate::add_symbol` of `field_shortcuts.rs` lines 151-179: fail on
overflow or duplicates, otherwise claim the lowest free bitmap index.  The
version counter is left untouched. -/
def addSymbol (t : FieldTemplate) (s : Symbol) :
    Except ErrorType (Nat × FieldTemplate) :=
  if t.fields.length ≥ maxShortcutsSize then .error .fatalError
  else if (lookupA t.fields s).isSome then .error .fatalError
  else
    let index := findFreeIndex t.bitmap 64 0
    if index ≥ 64 then .error .fatalError
    else
      .ok (index,
        { t with
          bitmap := t.bitmap + 2 ^ index
          fields := insertA t.fields s index })

/-- `FieldTemplate::remove_symbol` of `field_shortcuts.rs` lines 189-207: fail
when the symbol is absent; otherwise bump the `u16` version, clear the bitmap
bit and drop the mapping. -/
def removeSymbol (t : FieldTemplate) (s : Symbol) :
    Except ErrorType FieldTemplate :=
  match lookupA t.fields s with
  | none => .error .fatalError
  | some index =>
    .ok { t with
          version := (t.version + 1) % 2 ^ 16
          bitmap := t.bitmap - (t.bitmap / 2 ^ index % 2) * 2 ^ index
          fields := removeA t.fields s }

end FieldTemplate

/-- `FieldShortcuts`: recorded `u16` version, the (shared) template, presence
bitmap and the 26-entry value cache (a total function stands for the array). -/
structure FieldShortcuts where
  version : Nat
  template : FieldTemplate
  bitmap : Nat
  fields : Nat → Value

namespace FieldShortcuts

/-- `FieldShortcuts::new`: version copied from the template, clear bitmap,
cache filled with undefined. -/
def new (template : FieldTemplate) : FieldShortcuts :=
  ⟨template.version, template, 0, fun _ => Value.makeUndefined⟩

/-- `FieldShortcuts::get_field` of `field_shortcuts.rs` lines 297-323: result
value, `need_update` flag and the (possibly invalidated) shortcut state. -/
def getField (fs : FieldShortcuts) (template : Nat) (version : Nat) (index : Nat) :
    Option Value × Bool × FieldShortcuts :=
  if fs.template.id ≠ template then (none, false, fs)
  else
    let templateVersion := fs.template.version
    if fs.version ≠ templateVersion then
      (none, true, { fs with bitmap := 0, version := templateVersion })
    else if (templateVersion = version) && (fs.bitmap / 2 ^ index % 2 = 1) then
      (some (fs.fields index), false, fs)
    else
      (none, false, fs)

/-- `FieldShortcuts::set_symbol_field` of `field_shortcuts.rs` lines 325-344. -/
def setSymbolField (fs : FieldShortcuts) (s : Symbol) (value : Value) :
    FieldShortcuts :=
  let templateVersion := fs.template.version
  let fs :=
    if fs.version ≠ templateVersion then
      { fs with bitmap := 0, version := templateVersion }
    else fs
  match fs.template.getSymbolIndex s with
  | some index =>
    { fs with
      bitmap := fs.bitmap + (1 - fs.bitmap / 2 ^ index % 2) * 2 ^ index
      fields := fun i => if i = index then value else fs.fields i }
  | none => fs

/-- `FieldShortcuts::clear_field` of `field_shortcuts.rs` lines 374-394: when
the symbol has an index, either resynchronize a stale version (clearing the
whole bitmap) or clear the one bit. -/
def clearField (fs : FieldShortcuts) (s : Symbol) : FieldShortcuts :=
  match fs.template.getSymbolIndex s with
  | some index =>
    let templateVersion := fs.template.version
    if fs.version ≠ templateVersion then
      { fs with bitmap := 0, version := templateVersion }
    else
      { fs with bitmap := fs.bitmap - fs.bitmap / 2 ^ index % 2 * 2 ^ index }
  | none => fs

end FieldShortcuts

/-! ### Reference maps (`src/reference_map.rs`) -/

/-- `ReferenceMap`: a total reference count plus per-value counts. -/
structure ReferenceMap where
  count : Nat
  counts : List (Value × Nat)
deriving DecidableEq, Repr

namespace ReferenceMap

/-- `ReferenceMap::new`. -/
def new : ReferenceMap := ⟨0, []⟩

/-- `ReferenceMap::is_empty`. -/
def isEmpty (m : ReferenceMap) : Bool := m.count = 0

/-- `ReferenceMap::add_reference`. -/
def addReference (m : ReferenceMap) (value : Value) :
    Except ErrorType ReferenceMap :=
  let count := (lookupA m.counts value).getD 0
  .ok ⟨m.count + 1, insertA m.counts value (count + 1)⟩

/-- `ReferenceMap::remove_reference`: fails `FatalError` when the value has no
recorded count. -/
def removeReference (m : ReferenceMap) (value : Value) :
    Except ErrorType ReferenceMap :=
  match lookupA m.counts value with
  | none => .error .fatalError
  | some count =>
    if count = 0 then .error .fatalError
    else if count > 1 then
      .ok ⟨m.count - 1, insertA m.counts value (count - 1)⟩
    else
      .ok ⟨m.count - 1, removeA m.counts value⟩

end ReferenceMap

/-! ### Slots (`src/slot.rs`)

`Arc<dyn SlotTrap>` / `Arc<dyn InternalSlot>` objects are consumed by the
embedded code only through their reference lists, so they are modelled as
records of those lists.  Own-property traps are modelled after the concrete
`FieldPropertyTrap` of `src/trap/property_trap.rs` (a boxed `Value` with the
`is_simple_field` flag; `get_property` returns the box, `set_property` replaces
it and reports the reference delta).  Reference-count side effects routed
through the `Context` leave the slot state itself untouched and are therefore
not part of the slot-state transition; `context.resolve_real_value` is passed
in as a total `resolve` function (its value on a healthy isolate). -/

/-- `BASE_WHITE = 0b00`. -/
def baseWhite : Nat := 0

/-- `BASE_BLACK = 0b11`. -/
def baseBlack : Nat := 3

/-- `BASE_GRAY = 0b01`. -/
def baseGray : Nat := 1

/-- A slot trap capability, reduced to the reference lists the slot code
reads from it (`list_internal_referenced_values/symbols`). -/
structure SlotTrap where
  refValues : List Value
  refSymbols : List Symbol
deriving DecidableEq, Repr

/-- An internal slot, reduced to the reference lists the slot code reads from
it (`list_referenced_values/symbols`). -/
structure InternalSlot where
  refValues : List Value
  refSymbols : List Symbol
deriving DecidableEq, Repr

/-- A property trap in the shape of the source's `FieldPropertyTrap`: a boxed
value plus the `is_simple_field` answer (`true` for `FieldPropertyTrap`;
`false` stands for a complex user trap). -/
structure PropertyTrap where
  value : Value
  simple : Bool
deriving DecidableEq, Repr

namespace PropertyTrap

/-- `FieldPropertyTrap::new`. -/
def newField (value : Value) : PropertyTrap := ⟨value, true⟩

/-- `FieldPropertyTrap::list_referenced_values`. -/
def listReferencedValues (t : PropertyTrap) : List Value := [t.value]

/-- `FieldPropertyTrap::list_internal_referenced_symbols`. -/
def listInternalReferencedSymbols (_t : PropertyTrap) : List Symbol := []

/-- `FieldPropertyTrap::set_property`: replace the boxed value; the result is
`(removed_values, added_values, removed_symbols, added_symbols)`. -/
def setProperty (t : PropertyTrap) (value : Value) :
    PropertyTrap × (List Value × List Value × List Symbol × List Symbol) :=
  let oldValue := t.value
  if oldValue ≠ value then
    ({ t with value := value }, ([oldValue], [value], [], []))
  else
    ({ t with value := value }, ([], [], [], []))

end PropertyTrap

/-- `AtomicSlot`: the per-slot value state.  The `flags` word is split into
its two used bits `LIVE_FLAG` and `SEAL_FLAG`. -/
structure AtomicSlot where
  live : Bool
  sealed : Bool
  primitiveType : PrimitiveType
  prototype : Value
  slotTrap : Option SlotTrap
  ownPropertyTraps : List (Symbol × PropertyTrap)
  fieldShortcuts : Option FieldShortcuts
  internalSlots : List (Nat × InternalSlot)

namespace AtomicSlot

/-- `AtomicSlot::new`. -/
def new : AtomicSlot :=
  ⟨false, false, .undefined, Value.makeUndefined, none, [], none, []⟩

/-- `AtomicSlot::list_self_references_without_autorefresh`: the prototype, the
slot trap's references, every property trap's references and every internal
slot's references, in source order. -/
def listSelfReferences (a : AtomicSlot) : List Value × List Symbol :=
  let trapValues := match a.slotTrap with
    | some t => t.refValues
    | none => []
  let trapSymbols := match a.slotTrap with
    | some t => t.refSymbols
    | none => []
  let propValues := a.ownPropertyTraps.flatMap fun kv => kv.2.listReferencedValues
  let propSymbols :=
    a.ownPropertyTraps.flatMap fun kv => kv.2.listInternalReferencedSymbols
  let islotValues := a.internalSlots.flatMap fun kv => kv.2.refValues
  let islotSymbols := a.internalSlots.flatMap fun kv => kv.2.refSymbols
  (a.prototype :: (trapValues ++ propValues ++ islotValues),
   trapSymbols ++ propSymbols ++ islotSymbols)

/-- `AtomicSlot::reset`: collect the self references, then clear everything
(including both flags). -/
def reset (a : AtomicSlot) : AtomicSlot × (List Value × List Symbol) :=
  (AtomicSlot.new, a.listSelfReferences)

end AtomicSlot

/-- `SlotRecord`: address, color, inbound reference map and the atomic slot. -/
structure SlotRecord where
  regionId : Nat
  slotIndex : Nat
  color : Nat
  outerReferenceMap : Option ReferenceMap
  atomicSlot : AtomicSlot

namespace SlotRecord

/-- `SlotRecord::new`. -/
def new (regionId slotIndex : Nat) : SlotRecord :=
  ⟨regionId, slotIndex, 0, none, AtomicSlot.new⟩

/-- `SlotRecord::get_id`: rebuild the addressed `Value` from the primitive
type; non-slotted types are a `FatalError`. -/
def getId (r : SlotRecord) : Except ErrorType Value :=
  match r.atomicSlot.primitiveType with
  | .text => .ok (Value.makeText r.regionId r.slotIndex)
  | .list => .ok (Value.makeList r.regionId r.slotIndex)
  | .tuple => .ok (Value.makeTuple r.regionId r.slotIndex)
  | .object => .ok (Value.makeObject r.regionId r.slotIndex)
  | _ => .error .fatalError

/-- `SlotRecord::is_alive`. -/
def isAlive (r : SlotRecord) : Bool := r.atomicSlot.live

/-- `SlotRecord::is_sealed`. -/
def isSealed (r : SlotRecord) : Bool := r.atomicSlot.sealed

/-- `SlotRecord::has_no_outer_references`. -/
def hasNoOuterReferences (r : SlotRecord) : Bool :=
  match r.outerReferenceMap with
  | some m => m.isEmpty
  | none => true

end SlotRecord

/-! The `RegionSlot` layer of `slot.rs` adds the per-slot lock and the
liveness/seal guards around `SlotRecord`; its methods are embedded as
functions on `SlotRecord`. -/

namespace RegionSlot

/-- `RegionSlot::new`. -/
def new (regionId slotIndex : Nat) : SlotRecord := SlotRecord.new regionId slotIndex

/-- `RegionSlot::is_sealed`: fails `FatalError` on a dead slot. -/
def isSealed (r : SlotRecord) : Except ErrorType Bool :=
  if ¬ r.isAlive then .error .fatalError
  else .ok r.isSealed

/-- `RegionSlot::seal_slot` (`slot.rs` lines 934-948): set `SEAL_FLAG` on a
live slot. -/
def sealSlot (r : SlotRecord) : Except ErrorType SlotRecord :=
  if ¬ r.isAlive then .error .fatalError
  else .ok { r with atomicSlot := { r.atomicSlot with sealed := true } }

/-- `RegionSlot::mark_as_alive`. -/
def markAsAlive (r : SlotRecord) : SlotRecord :=
  { r with atomicSlot := { r.atomicSlot with live := true } }

/-- `RegionSlot::overwrite_primitive_type`: only slotted types are allowed. -/
def overwritePrimitiveType (r : SlotRecord) (primitiveType : PrimitiveType) :
    Except ErrorType SlotRecord :=
  match primitiveType with
  | .text | .list | .tuple | .object =>
    .ok { r with atomicSlot := { r.atomicSlot with primitiveType := primitiveType } }
  | _ => .error .fatalError

/-- `RegionSlot::recycle` (`slot.rs` lines 837-867): a dead slot is a no-op;
a live slot is reset and its removed references are handed back for the
context to decrement (the drop notifications carry no slot state). -/
def recycle (r : SlotRecord) (dropValue : Bool) :
    Except ErrorType (SlotRecord × List Value × List Symbol) :=
  if ¬ r.isAlive then .ok (r, [], [])
  else do
    let _ ← r.getId
    let (atomic, removed) := r.atomicSlot.reset
    let _ := dropValue
    .ok ({ r with color := 0, outerReferenceMap := none, atomicSlot := atomic },
      removed.1, removed.2)

/-- `RegionSlot::set_slot_trap` (`slot.rs` lines 979-1015): guarded by
liveness and the seal flag; replaces the trap (the context reference deltas do
not touch the slot state). -/
def setSlotTrap (r : SlotRecord) (slotTrap : SlotTrap) :
    Except ErrorType SlotRecord :=
  if ¬ r.isAlive then .error .fatalError
  else if r.isSealed then .error .mutatingSealedProperty
  else .ok { r with atomicSlot := { r.atomicSlot with slotTrap := some slotTrap } }

/-- `RegionSlot::clear_slot_trap` (`slot.rs` lines 1017-1045). -/
def clearSlotTrap (r : SlotRecord) : Except ErrorType SlotRecord :=
  if ¬ r.isAlive then .error .fatalError
  else if r.isSealed then .error .mutatingSealedProperty
  else .ok { r with atomicSlot := { r.atomicSlot with slotTrap := none } }

/-- `RegionSlot::set_internal_slot` (`slot.rs` lines 1066-1101). -/
def setInternalSlot (r : SlotRecord) (id : Nat) (internalSlot : InternalSlot) :
    Except ErrorType SlotRecord :=
  if ¬ r.isAlive then .error .fatalError
  else if r.isSealed then .error .mutatingSealedProperty
  else .ok { r with atomicSlot :=
    { r.atomicSlot with
      internalSlots := insertA r.atomicSlot.internalSlots id internalSlot } }

/-- `RegionSlot::clear_internal_slot` (`slot.rs` lines 1103-1131). -/
def clearInternalSlot (r : SlotRecord) (id : Nat) : Except ErrorType SlotRecord :=
  if ¬ r.isAlive then .error .fatalError
  else if r.isSealed then .error .mutatingSealedProperty
  else .ok { r with atomicSlot :=
    { r.atomicSlot with
      internalSlots := removeA r.atomicSlot.internalSlots id } }

/-- `RegionSlot::overwrite_own_property` (`slot.rs` lines 1325-1358): replace
the property trap by a fresh `FieldPropertyTrap` boxing `value`, updating the
field shortcuts; the result carries
`(removed_values, removed_symbols, added_values, added_symbols)`. -/
def overwriteOwnProperty (r : SlotRecord) (symbol : Symbol) (value : Value) :
    Except ErrorType (SlotRecord × List Value × List Symbol × List Value × List Symbol) :=
  if ¬ r.isAlive then .error .fatalError
  else if r.isSealed then .error .mutatingSealedProperty
  else
    let (removedValues, removedSymbols, addedSymbols) :=
      match lookupA r.atomicSlot.ownPropertyTraps symbol with
      | none => ([], [], [])
      | some propertyTrap =>
        (propertyTrap.listReferencedValues,
         propertyTrap.listInternalReferencedSymbols, [symbol])
    let fieldShortcuts :=
      match r.atomicSlot.fieldShortcuts with
      | some fs => some (fs.setSymbolField symbol value)
      | none => none
    let newTrap := PropertyTrap.newField value
    .ok ({ r with atomicSlot :=
        { r.atomicSlot with
          fieldShortcuts := fieldShortcuts
          ownPropertyTraps := insertA r.atomicSlot.ownPropertyTraps symbol newTrap } },
      removedValues, removedSymbols, [value], addedSymbols)

/-- `RegionSlot::set_own_property_ignore_slot_trap` (`slot.rs` lines
1451-1541): resolve the value, then either install a fresh
`FieldPropertyTrap`, update a simple field through its trap (refreshing the
shortcut cache), or route through the trap's `set_property` with the shortcut
entry cleared. -/
def setOwnPropertyIgnoreSlotTrap (r : SlotRecord) (resolve : Value → Value)
    (symbol : Symbol) (value : Value) : Except ErrorType SlotRecord :=
  let value := resolve value
  if ¬ r.isAlive then .error .fatalError
  else if r.isSealed then .error .mutatingSealedProperty
  else
    match lookupA r.atomicSlot.ownPropertyTraps symbol with
    | none =>
      let propertyTrap := PropertyTrap.newField value
      .ok { r with atomicSlot :=
        { r.atomicSlot with
          ownPropertyTraps := insertA r.atomicSlot.ownPropertyTraps symbol propertyTrap } }
    | some propertyTrap =>
      match r.atomicSlot.fieldShortcuts with
      | some fieldShortcuts =>
        if propertyTrap.simple then
          let (trap', _) := propertyTrap.setProperty value
          .ok { r with atomicSlot :=
            { r.atomicSlot with
              fieldShortcuts := some (fieldShortcuts.setSymbolField symbol value)
              ownPropertyTraps := insertA r.atomicSlot.ownPropertyTraps symbol trap' } }
        else
          let fieldShortcuts := fieldShortcuts.clearField symbol
          let (trap', _) := propertyTrap.setProperty value
          .ok { r with atomicSlot :=
            { r.atomicSlot with
              fieldShortcuts := some ((fieldShortcuts.clearField symbol))
              ownPropertyTraps := insertA r.atomicSlot.ownPropertyTraps symbol trap' } }
      | none =>
        let (trap', _) := propertyTrap.setProperty value
        .ok { r with atomicSlot :=
          { r.atomicSlot with
            ownPropertyTraps := insertA r.atomicSlot.ownPropertyTraps symbol trap' } }

/-- `RegionSlot::define_own_property_ignore_slot_trap` (`slot.rs` lines
1621-1666): guarded like the setter; updates the shortcut cache (store for a
simple field, clear otherwise) and replaces the trap. -/
def defineOwnPropertyIgnoreSlotTrap (r : SlotRecord) (symbol : Symbol)
    (propertyTrap : PropertyTrap) : Except ErrorType SlotRecord :=
  if ¬ r.isAlive then .error .fatalError
  else if r.isSealed then .error .mutatingSealedProperty
  else
    let fieldShortcuts :=
      match r.atomicSlot.fieldShortcuts with
      | some fs =>
        if propertyTrap.simple then some (fs.setSymbolField symbol propertyTrap.value)
        else some (fs.clearField symbol)
      | none => none
    .ok { r with atomicSlot :=
      { r.atomicSlot with
        fieldShortcuts := fieldShortcuts
        ownPropertyTraps := insertA r.atomicSlot.ownPropertyTraps symbol propertyTrap } }

/-- `RegionSlot::delete_own_property_ignore_slot_trap` (`slot.rs` lines
1730-1759): guarded like the setter; clears the shortcut entry and removes the
trap. -/
def deleteOwnPropertyIgnoreSlotTrap (r : SlotRecord) (symbol : Symbol) :
    Except ErrorType SlotRecord :=
  if ¬ r.isAlive then .error .fatalError
  else if r.isSealed then .error .mutatingSealedProperty
  else
    let fieldShortcuts :=
      match r.atomicSlot.fieldShortcuts with
      | some fs => some (fs.clearField symbol)
      | none => none
    .ok { r with atomicSlot :=
      { r.atomicSlot with
        fieldShortcuts := fieldShortcuts
        ownPropertyTraps := removeA r.atomicSlot.ownPropertyTraps symbol } }

/-- Modelled from the spec: `RegionSlot::set_prototype_ignore_slot_trap` is
called from `region.rs` but its body is not part of the `src/` snapshot.  Per
the spec, prototype writes go through the own-property machinery and "a sealed
slot rejects every mutation except reference bookkeeping and color changes"
(`MutatingSealedProperty`), so the embedded form guards on liveness and the
seal flag and then stores the prototype. -/
def setPrototypeIgnoreSlotTrap (r : SlotRecord) (prototype : Value) :
    Except ErrorType SlotRecord :=
  if ¬ r.isAlive then .error .fatalError
  else if r.isSealed then .error .mutatingSealedProperty
  else .ok { r with atomicSlot := { r.atomicSlot with prototype := prototype } }

/-- `RegionSlot::has_no_outer_references`. -/
def hasNoOuterReferences (r : SlotRecord) : Except ErrorType Bool :=
  if ¬ r.isAlive then .error .fatalError
  else .ok r.hasNoOuterReferences

/-- `RegionSlot::add_outer_reference` (`slot.rs` lines 1926-1938): no seal
guard; creates the reference map on demand. -/
def addOuterReference (r : SlotRecord) (value : Value) :
    Except ErrorType SlotRecord :=
  if ¬ r.isAlive then .error .fatalError
  else do
    let m := match r.outerReferenceMap with
      | some m => m
      | none => ReferenceMap.new
    let m ← m.addReference value
    .ok { r with outerReferenceMap := some m }

/-- `RegionSlot::remove_outer_reference` (`slot.rs` lines 1940-1952 together
with `SlotRecord::remove_outer_reference`): no seal guard; an absent map is a
`FatalError` and an emptied map is dropped. -/
def removeOuterReference (r : SlotRecord) (value : Value) :
    Except ErrorType SlotRecord :=
  if ¬ r.isAlive then .error .fatalError
  else
    match r.outerReferenceMap with
    | none => .error .fatalError
    | some m => do
      let m ← m.removeReference value
      if m.isEmpty then .ok { r with outerReferenceMap := none }
      else .ok { r with outerReferenceMap := some m }

/-- `RegionSlot::mark_as_white` (`slot.rs` lines 1967-1981, with
`SlotRecord::mark_as_white`): `color := (BASE_WHITE ^ base) & 0b11`; no seal
guard. -/
def markAsWhite (r : SlotRecord) (base : Nat) : Except ErrorType SlotRecord :=
  if ¬ r.isAlive then .error .fatalError
  else .ok { r with color := (baseWhite ^^^ base) % 4 }

/-- `RegionSlot::mark_as_black`: `color := (BASE_BLACK ^ base) & 0b11`. -/
def markAsBlack (r : SlotRecord) (base : Nat) : Except ErrorType SlotRecord :=
  if ¬ r.isAlive then .error .fatalError
  else .ok { r with color := (baseBlack ^^^ base) % 4 }

/-- `RegionSlot::mark_as_gray`: `color := BASE_GRAY` regardless of the base. -/
def markAsGray (r : SlotRecord) (_base : Nat) : Except ErrorType SlotRecord :=
  if ¬ r.isAlive then .error .fatalError
  else .ok { r with color := baseGray }

/-- `RegionSlot::is_white`: `(color ^ base) & 0b11 == BASE_WHITE`. -/
def isWhite (r : SlotRecord) (base : Nat) : Except ErrorType Bool :=
  if ¬ r.isAlive then .error .fatalError
  else .ok ((r.color ^^^ base) % 4 = baseWhite)

/-- `RegionSlot::is_black`: `(color ^ base) & 0b11 == BASE_BLACK`. -/
def isBlack (r : SlotRecord) (base : Nat) : Except ErrorType Bool :=
  if ¬ r.isAlive then .error .fatalError
  else .ok ((r.color ^^^ base) % 4 = baseBlack)

/-- `RegionSlot::is_gray`: `color == BASE_GRAY`. -/
def isGray (r : SlotRecord) (_base : Nat) : Except ErrorType Bool :=
  if ¬ r.isAlive then .error .fatalError
  else .ok (r.color = baseGray)

end RegionSlot

/-! ### Regions (`src/region.rs`)

The `[u64; 10]` occupancy and empties bitmaps are modelled as 10-element lists
of 64-bit words, addressed exactly as the source does with
`offset = slot >> 6` and `shift = slot & 0x3f`.  The 578 `RegionSlot`s are a
total function from the index. -/

/-- `REGION_SLOT_SIZE = 578`. -/
def regionSlotSize : Nat := 578

/-- `REGION_BITMAP_SIZE = 10`. -/
def regionBitmapSize : Nat := 10

/-- Read word `offset` of a bitmap. -/
def wordGet (words : List Nat) (offset : Nat) : Nat := words.getD offset 0

/-- `(words[offset] >> shift) & 1 == 1`. -/
def wordTestBit (words : List Nat) (offset shift : Nat) : Bool :=
  wordGet words offset / 2 ^ shift % 2 = 1

/-- `words[offset] |= 1 << shift`. -/
def wordSetBit (words : List Nat) (offset shift : Nat) : List Nat :=
  words.set offset
    (wordGet words offset + (1 - wordGet words offset / 2 ^ shift % 2) * 2 ^ shift)

/-- `words[offset] &= !(1 << shift)`. -/
def wordClearBit (words : List Nat) (offset shift : Nat) : List Nat :=
  words.set offset
    (wordGet words offset - wordGet words offset / 2 ^ shift % 2 * 2 ^ shift)

/-- A redirection record: the forwarding target plus its reference map
(`RegionRedirectionReference`). -/
structure RegionRedirection where
  redirection : Value
  referenceMap : ReferenceMap
deriving DecidableEq, Repr

/-- `Region`. -/
structure Region where
  id : Nat
  occupied : Nat
  nextEmptySlotIndex : Nat
  bitmap : List Nat
  empties : List Nat
  redirections : List (Value × RegionRedirection)
  redirectionFroms : List (Value × List Value)
  nursery : List Value
  slots : Nat → SlotRecord

namespace Region

/-- `Region::new`: clear occupancy bitmap, all-ones empties bitmap, fresh
slots. -/
def new (id : Nat) : Region :=
  { id := id
    occupied := 0
    nextEmptySlotIndex := 0
    bitmap := List.replicate regionBitmapSize 0
    empties := List.replicate regionBitmapSize (2 ^ 64 - 1)
    redirections := []
    redirectionFroms := []
    nursery := []
    slots := fun index => RegionSlot.new id index }

/-- `Region::is_full_without_lock`. -/
def isFull (r : Region) : Bool := r.occupied = regionSlotSize

/-- `Region::is_empty_without_lock`. -/
def isEmpty (r : Region) : Bool := (r.occupied = 0) && r.redirections.isEmpty

/-- `Region::could_gain_slot_quickly_without_lock`. -/
def couldGainSlotQuickly (r : Region) : Bool :=
  r.nextEmptySlotIndex ≠ regionSlotSize

/-- Update one slot record. -/
def setSlot (r : Region) (index : Nat) (record : SlotRecord) : Region :=
  { r with slots := fun i => if i = index then record else r.slots i }

/-- `Region::ensure_slot_referencable`: region id must match and the empties
bit must be clear. -/
def ensureSlotReferencable (r : Region) (slot : Value) : Except ErrorType Nat := do
  let regionId ← slot.getRegionId
  if r.id ≠ regionId then .error .fatalError
  else
    let slot ← slot.getRegionSlot
    let offset := slot / 2 ^ 6
    let shift := slot % 2 ^ 6
    if wordTestBit r.empties offset shift then .error .fatalError
    else .ok slot

/-- `Region::ensure_slot_available`: additionally the occupancy bit must be
set. -/
def ensureSlotAvailable (r : Region) (slot : Value) : Except ErrorType Nat := do
  let regionId ← slot.getRegionId
  if r.id ≠ regionId then .error .fatalError
  else
    let slot ← slot.getRegionSlot
    let offset := slot / 2 ^ 6
    let shift := slot % 2 ^ 6
    if ¬ wordTestBit r.bitmap offset shift then .error .fatalError
    else if wordTestBit r.empties offset shift then .error .fatalError
    else .ok slot

/-- `Region::gain_slot` (`region.rs` lines 234-303): only slotted primitive
types may be allocated; the bump pointer picks the slot, the bitmaps and the
occupancy counter are updated, the new value enters the nursery and the slot
record is made alive with the primitive type installed. -/
def gainSlot (r : Region) (primitiveType : PrimitiveType) :
    Except ErrorType (Value × Region) := do
  match primitiveType with
  | .text | .list | .tuple | .object => pure ()
  | _ => .error .fatalError
  if r.isFull then .error .outOfSpace
  else if ¬ r.couldGainSlotQuickly then .error .outOfSpace
  else
    let slot := r.nextEmptySlotIndex
    let offset := slot / 2 ^ 6
    let shift := slot % 2 ^ 6
    if wordTestBit r.bitmap offset shift then .error .fatalError
    else if ¬ wordTestBit r.empties offset shift then .error .fatalError
    else do
      let id ←
        match primitiveType with
        | .text => pure (Value.makeText r.id slot)
        | .list => pure (Value.makeList r.id slot)
        | .tuple => pure (Value.makeTuple r.id slot)
        | .object => pure (Value.makeObject r.id slot)
        | _ => .error .fatalError
      let record := RegionSlot.markAsAlive (r.slots slot)
      let record ← RegionSlot.overwritePrimitiveType record primitiveType
      let r :=
        { r with
          bitmap := wordSetBit r.bitmap offset shift
          empties := wordClearBit r.empties offset shift
          occupied := r.occupied + 1
          nextEmptySlotIndex := r.nextEmptySlotIndex + 1
          nursery := insertL r.nursery id }
      .ok (id, (r.setSlot slot record))

/-- `Region::recycle_slot` (`region.rs` lines 305-357): refuse on the wrong
region, on a clear occupancy bit, while the value is in the nursery, while a
live slot still has outer references, or while `redirection_froms` points at
the value.  `drop_value = true` additionally sets the empties bit and
decrements `occupied`; the occupancy bit is cleared and the record recycled in
both cases. -/
def recycleSlot (r : Region) (value : Value) (dropValue : Bool) :
    Except ErrorType Region := do
  let regionId ← value.getRegionId
  if r.id ≠ regionId then .error .fatalError
  else do
    let slot ← value.getRegionSlot
    let offset := slot / 2 ^ 6
    let shift := slot % 2 ^ 6
    if ¬ wordTestBit r.bitmap offset shift then .error .fatalError
    else if memL r.nursery value then .error .fatalError
    else
      let record := r.slots slot
      if record.isAlive && ¬ record.hasNoOuterReferences then .error .fatalError
      else if (lookupA r.redirectionFroms value).isSome then .error .fatalError
      else do
        let r :=
          if dropValue then
            { r with
              empties := wordSetBit r.empties offset shift
              occupied := r.occupied - 1 }
          else r
        let r :=
          { r with
            bitmap := wordClearBit r.bitmap offset shift
            nursery := removeL r.nursery value }
        let (record, _, _) ← RegionSlot.recycle record dropValue
        .ok (r.setSlot slot record)

/-- `Region::resolve_redirection` (`region.rs` lines 394-419). -/
def resolveRedirection (r : Region) (value : Value) : Except ErrorType Value := do
  let regionId ← value.getRegionId
  if r.id ≠ regionId then .error .fatalError
  else do
    let slot ← value.getRegionSlot
    let offset := slot / 2 ^ 6
    let shift := slot % 2 ^ 6
    match lookupA r.redirections value with
    | none =>
      if ¬ wordTestBit r.bitmap offset shift then .error .fatalError
      else .ok value
    | some reference => .ok reference.redirection

/-- `Region::move_out_from_nursery` (`region.rs` lines 463-484). -/
def moveOutFromNursery (r : Region) (value : Value) : Except ErrorType Region := do
  let regionId ← value.getRegionId
  if r.id ≠ regionId then .error .fatalError
  else do
    let slot ← value.getRegionSlot
    let offset := slot / 2 ^ 6
    let shift := slot % 2 ^ 6
    if ¬ wordTestBit r.bitmap offset shift then .error .fatalError
    else .ok { r with nursery := removeL r.nursery value }

/-- `Region::is_value_alive` (`region.rs` lines 486-505). -/
def isValueAlive (r : Region) (value : Value) : Except ErrorType Bool := do
  let regionId ← value.getRegionId
  if r.id ≠ regionId then .error .fatalError
  else do
    let slot ← value.getRegionSlot
    let offset := slot / 2 ^ 6
    let shift := slot % 2 ^ 6
    if ¬ wordTestBit r.bitmap offset shift then .ok false
    else .ok (r.slots slot).isAlive

/-- `Region::is_value_occupied` (`region.rs` lines 507-522): the empties bit
is clear. -/
def isValueOccupied (r : Region) (value : Value) : Except ErrorType Bool := do
  let regionId ← value.getRegionId
  if r.id ≠ regionId then .error .fatalError
  else do
    let slot ← value.getRegionSlot
    let offset := slot / 2 ^ 6
    let shift := slot % 2 ^ 6
    .ok (¬ wordTestBit r.empties offset shift)

/-- `Region::add_reference` (`region.rs` lines 632-660): a redirected value
collects the reference in its redirection reference map; otherwise the slot
record collects an outer reference and the value leaves the nursery. -/
def addReference (r : Region) (reference from_ : Value) :
    Except ErrorType Region := do
  let slot ← r.ensureSlotReferencable reference
  match lookupA r.redirections reference with
  | some redirectionReference => do
    let m ← redirectionReference.referenceMap.addReference from_
    .ok { r with
      redirections :=
        insertA r.redirections reference
          ({ redirectionReference with referenceMap := m }) }
  | none => do
    let record ← RegionSlot.addOuterReference (r.slots slot) from_
    let removingNursery := memL r.nursery reference
    let r := r.setSlot slot record
    if removingNursery then .ok { r with nursery := removeL r.nursery reference }
    else .ok r

/-- `Region::seal_slot` (`region.rs` lines 726-740). -/
def sealSlot (r : Region) (value : Value) : Except ErrorType Region := do
  let slot ← r.ensureSlotAvailable value
  let record ← RegionSlot.sealSlot (r.slots slot)
  .ok (r.setSlot slot record)

/-- `Region::is_sealed` (`region.rs` lines 710-724). -/
def isSealed (r : Region) (value : Value) : Except ErrorType Bool := do
  let slot ← r.ensureSlotAvailable value
  RegionSlot.isSealed (r.slots slot)

/-- `Region::overwrite_own_property` (`region.rs` lines 1042-1056). -/
def overwriteOwnProperty (r : Region) (id : Value) (symbol : Symbol)
    (value : Value) :
    Except ErrorType (Region × List Value × List Symbol × List Value × List Symbol) := do
  let slot ← r.ensureSlotAvailable id
  let (record, removedValues, removedSymbols, addedValues, addedSymbols) ←
    RegionSlot.overwriteOwnProperty (r.slots slot) symbol value
  .ok (r.setSlot slot record, removedValues, removedSymbols, addedValues, addedSymbols)

/-- `Region::mark_as_gray` (`region.rs` lines 1342-1361): gray a white slot,
report whether anything changed. -/
def markAsGray (r : Region) (value : Value) (base : Nat) :
    Except ErrorType (Bool × Region) := do
  let slot ← r.ensureSlotAvailable value
  let white ← RegionSlot.isWhite (r.slots slot) base
  if white then do
    let record ← RegionSlot.markAsGray (r.slots slot) base
    .ok (true, r.setSlot slot record)
  else
    .ok (false, r)

/-- `Region::mark_as_black` (`region.rs` lines 1326-1340). -/
def markAsBlack (r : Region) (value : Value) (base : Nat) :
    Except ErrorType Region := do
  let slot ← r.ensureSlotAvailable value
  let record ← RegionSlot.markAsBlack (r.slots slot) base
  .ok (r.setSlot slot record)

/-- `Region::list_values_in_nursery`. -/
def listValuesInNursery (r : Region) : List Value := r.nursery

end Region

/-! ### The reentrant slot-layout lock (`src/util/reentrant_lock.rs`)

The atomics are modelled in a single-thread interleaving: a CAS loop that
cannot make progress because another owner holds the `flag` or `reading`
counters is a `blocked` outcome, and a `panic!` is a `fault` outcome. -/

/-- `ReentrantLock`: the shared `flag` word (0 = free, otherwise the owning
token's flag id) and the global reader count. -/
structure ReentrantLock where
  flag : Nat
  reading : Nat
deriving DecidableEq, Repr

/-- `ReentrantToken`: the per-token flag ids and reader/writer counts. -/
structure ReentrantToken where
  readingFlag : Nat
  writingFlag : Nat
  reading : Nat
  writing : Nat
deriving DecidableEq, Repr

/-- A fresh token on a fresh lock (`ReentrantLock::new` handing out flags 1
and 2 through `gain_flag`). -/
def ReentrantToken.new : ReentrantLock × ReentrantToken :=
  (⟨0, 0⟩, ⟨1, 2, 0, 0⟩)

/-- Outcome of a blocking acquire. -/
inductive WriteAcquire where
  | fault
  | blocked
  | acquired (lock : ReentrantLock) (token : ReentrantToken) (locked : Bool)
deriving DecidableEq, Repr

/-- Outcome of a blocking read acquire. -/
inductive ReadAcquire where
  | blocked
  | acquired (lock : ReentrantLock) (token : ReentrantToken)
deriving DecidableEq, Repr

namespace ReentrantLock

/-- `ReentrantLock::lock_read` (`reentrant_lock.rs` lines 138-167): reentrant
when the token already holds a read or write lease; otherwise spin on the CAS
until the flag is free, then register the reader. -/
def lockRead (lk : ReentrantLock) (tk : ReentrantToken) : ReadAcquire :=
  if tk.reading > 0 ∨ tk.writing > 0 then
    .acquired { lk with reading := lk.reading + 1 } { tk with reading := tk.reading + 1 }
  else if lk.flag = 0 then
    .acquired { lk with reading := lk.reading + 1 } { tk with reading := tk.reading + 1 }
  else .blocked

/-- `ReentrantLock::lock_write` (`reentrant_lock.rs` lines 216-250): a token
holding a read lease without a write lease hits the
`panic!("Reentrant lock is locked for reading on the token, but writing
expected")`; a held write lease re-enters; otherwise the writer spins for the
flag and for the readers to drain. -/
def lockWrite (lk : ReentrantLock) (tk : ReentrantToken) : WriteAcquire :=
  if tk.reading > 0 ∧ tk.writing = 0 then .fault
  else if tk.writing > 0 then
    .acquired lk { tk with writing := tk.writing + 1 } true
  else if lk.flag = 0 then
    if lk.reading = 0 then
      .acquired { lk with flag := tk.writingFlag } { tk with writing := tk.writing + 1 } true
    else .blocked
  else .blocked

/-- `ReentrantLock::try_lock_write` (`reentrant_lock.rs` lines 253-290): the
read-lease-without-write-lease case returns an unlocked guard instead of
faulting; a held write lease re-enters; otherwise one CAS attempt either wins
the flag (and succeeds only with no active readers) or yields an unlocked
guard. -/
def tryLockWrite (lk : ReentrantLock) (tk : ReentrantToken) :
    ReentrantLock × ReentrantToken × Bool :=
  if tk.reading > 0 ∧ tk.writing = 0 then (lk, tk, false)
  else if tk.writing > 0 then (lk, { tk with writing := tk.writing + 1 }, true)
  else if lk.flag = 0 then
    if lk.reading = 0 then
      ({ lk with flag := tk.writingFlag }, { tk with writing := tk.writing + 1 }, true)
    else (lk, tk, false)
  else (lk, tk, false)

end ReentrantLock

/-! ### The page map and the isolate (`src/util/page_map.rs`, `src/isolate.rs`)

The 3-level page table is an allocation detail; its observable content is the
`index → item` partial map together with `next_index`, modelled as an
association list of regions plus the counter.  Scope-name and text strings of
the symbol interface are abstracted as `Nat` keys. -/

/-- `MAX_ITEMS` of `page_map.rs`
(`(((MAX_TABLE_ITEMS << 10) + 1024) << 10) + 1024` with
`MAX_TABLE_ITEMS = 1016`). -/
def pageMapMaxItems : Nat := ((1016 * 1024 + 1024) * 1024) + 1024

/-- The index-search loop of `PageMap::gain_item`: starting at `next_index`,
fail `OutOfSpace` at `MAX_ITEMS`, skip occupied indices, and return the first
free index together with the advanced counter.  The fuel bounds the loop by
`MAX_ITEMS + 1` steps. -/
def pageMapGainIndex (items : List (Nat × Region)) :
    Nat → Nat → Except ErrorType (Nat × Nat)
  | 0, _ => .error .fatalError
  | fuel + 1, next =>
    if next ≥ pageMapMaxItems then .error .outOfSpace
    else if (lookupA items next).isNone then .ok (next, next + 1)
    else pageMapGainIndex items fuel (next + 1)

/-- The isolate state used by the claims: the region page map, the protected
set, the base color, the symbol scopes and the builtin prototypes.  The
barrier slot is omitted here: its only effect is on the collector state, which
is modelled by the `Collector` functions below. -/
structure Isolate where
  regions : List (Nat × Region)
  nextRegionIndex : Nat
  protectedRegionIds : List Nat
  baseColor : Nat
  scopes : List (Nat × SymbolScope)
  symbolLut : List (Symbol × Nat)
  prototypeSymbol : Symbol
  objectPrototype : Value
  booleanPrototype : Value
  integerPrototype : Value
  floatPrototype : Value
  symbolPrototype : Value
  textPrototype : Value
  listPrototype : Value
  tuplePrototype : Value

namespace Isolate

/-- The isolate record as first initialized inside `Isolate::create`
(`isolate.rs` lines 108-152): empty page map, base color white, undefined
prototypes, `prototype_symbol = Symbol::new(0)`. -/
def init : Isolate :=
  { regions := []
    nextRegionIndex := 0
    protectedRegionIds := []
    baseColor := baseWhite
    scopes := []
    symbolLut := []
    prototypeSymbol := ⟨0⟩
    objectPrototype := Value.makeUndefined
    booleanPrototype := Value.makeUndefined
    integerPrototype := Value.makeUndefined
    floatPrototype := Value.makeUndefined
    symbolPrototype := Value.makeUndefined
    textPrototype := Value.makeUndefined
    listPrototype := Value.makeUndefined
    tuplePrototype := Value.makeUndefined }

/-- `Isolate::create_region` (`isolate.rs` lines 427-437): gain a page-map
index (the factory creates the region at that id) and protect it. -/
def createRegion (iso : Isolate) : Except ErrorType (Nat × Isolate) := do
  let (id, next) ← pageMapGainIndex iso.regions (pageMapMaxItems + 1) iso.nextRegionIndex
  .ok (id,
    { iso with
      regions := insertA iso.regions id (Region.new id)
      nextRegionIndex := next
      protectedRegionIds := insertL iso.protectedRegionIds id })

/-- `Isolate::unprotect_region` (`isolate.rs` lines 560-575). -/
def unprotectRegion (iso : Isolate) (regionId : Nat) : Except ErrorType Isolate :=
  match lookupA iso.regions regionId with
  | none => .error .fatalError
  | some _ =>
    if ¬ memL iso.protectedRegionIds regionId then .error .fatalError
    else .ok { iso with protectedRegionIds := removeL iso.protectedRegionIds regionId }

/-- `Isolate::is_region_protected`. -/
def isRegionProtected (iso : Isolate) (regionId : Nat) : Except ErrorType Bool :=
  match lookupA iso.regions regionId with
  | none => .error .fatalError
  | some _ => .ok (memL iso.protectedRegionIds regionId)

/-- `Isolate::get_text_symbol` (`isolate.rs` lines 1237-1263): intern through
the named scope, creating the scope on demand, and record the symbol → scope
lookup table entry. -/
def getTextSymbol (iso : Isolate) (scopeKey textKey : Nat) : Symbol × Isolate :=
  match lookupA iso.scopes scopeKey with
  | some scope =>
    let (symbol, scope) := scope.getTextSymbol textKey
    (symbol,
      { iso with
        scopes := insertA iso.scopes scopeKey scope
        symbolLut := insertA iso.symbolLut symbol scopeKey })
  | none =>
    let (symbol, scope) := SymbolScope.new.getTextSymbol textKey
    (symbol,
      { iso with
        scopes := insertA iso.scopes scopeKey scope
        symbolLut := insertA iso.symbolLut symbol scopeKey })

/-- `Isolate::add_symbol_reference` (`isolate.rs` lines 1061-1073): routed to
the owning scope through the lookup table. -/
def addSymbolReference (iso : Isolate) (symbol : Symbol) :
    Except ErrorType Isolate :=
  match lookupA iso.symbolLut symbol with
  | none => .error .fatalError
  | some scopeKey =>
    match lookupA iso.scopes scopeKey with
    | none => .error .fatalError
    | some scope => do
      let scope ← scope.addSymbolReference symbol
      .ok { iso with scopes := insertA iso.scopes scopeKey scope }

/-- `Isolate::remove_symbol_reference`: the removing counterpart. -/
def removeSymbolReference (iso : Isolate) (symbol : Symbol) :
    Except ErrorType Isolate :=
  match lookupA iso.symbolLut symbol with
  | none => .error .fatalError
  | some scopeKey =>
    match lookupA iso.scopes scopeKey with
    | none => .error .fatalError
    | some scope => do
      let scope ← scope.removeSymbolReference symbol
      .ok { iso with scopes := insertA iso.scopes scopeKey scope }

/-- `Isolate::resolve_real_value` (`isolate.rs` lines 607-645): walk the
redirection chain until it converges; the fuel bounds the chain length (the
source iterates unboundedly). -/
def resolveRealValueAux (iso : Isolate) : Nat → Value → Except ErrorType Value
  | 0, _ => .error .fatalError
  | fuel + 1, slot =>
    match slot.getRegionId with
    | .error _ => .ok slot
    | .ok regionId =>
      match lookupA iso.regions regionId with
      | none => .ok slot
      | some region => do
        let newSlot ← region.resolveRedirection slot
        if newSlot = slot then .ok slot
        else resolveRealValueAux iso fuel newSlot

/-- `Isolate::resolve_real_value`, entry point: non-slotted values resolve to
themselves. -/
def resolveRealValue (iso : Isolate) (fuel : Nat) (value : Value) :
    Except ErrorType Value :=
  if ¬ value.isSlotted then .ok value
  else resolveRealValueAux iso fuel value

/-- `Isolate::add_value_reference` (`isolate.rs` lines 1118-1158): non-slotted
sources are ignored, symbol targets become symbol references, self references
are ignored, and slotted targets collect a region reference. -/
def addValueReference (iso : Isolate) (from_ to_ : Value) :
    Except ErrorType Isolate :=
  if ¬ from_.isSlotted then .ok iso
  else if to_.isSymbol then iso.addSymbolReference (to_.extractSymbol ⟨0⟩)
  else if ¬ to_.isSlotted then .ok iso
  else do
    let toRegionId ← to_.getRegionId
    let toRegionSlot ← to_.getRegionSlot
    let fromRegionId ← from_.getRegionId
    let fromRegionSlot ← from_.getRegionSlot
    if toRegionId = fromRegionId ∧ toRegionSlot = fromRegionSlot then .ok iso
    else
      match lookupA iso.regions toRegionId with
      | none => .error .fatalError
      | some region => do
        let region ← region.addReference to_ from_
        .ok { iso with regions := insertA iso.regions toRegionId region }

/-- `Isolate::mark_as_white` (`isolate.rs` lines 940-957), verbatim: the
guard `if value.is_slotted() { return Ok(()) }` returns early for every
slotted value (so the region marking below it is unreachable for real slot
values — the guard reads as if it were meant to be negated). -/
def markAsWhite (iso : Isolate) (value : Value) : Except ErrorType Isolate :=
  if value.isSlotted then .ok iso
  else do
    let regionId ← value.getRegionId
    match lookupA iso.regions regionId with
    | none => .error .fatalError
    | some region => do
      let record ← Region.ensureSlotAvailable region value
      let slotRecord ← RegionSlot.markAsWhite (region.slots record) iso.baseColor
      .ok { iso with
            regions := insertA iso.regions regionId (region.setSlot record slotRecord) }

/-- `Isolate::mark_as_black` (`isolate.rs` lines 959-976), with the same
verbatim early return for slotted values. -/
def markAsBlack (iso : Isolate) (value : Value) : Except ErrorType Isolate :=
  if value.isSlotted then .ok iso
  else do
    let regionId ← value.getRegionId
    match lookupA iso.regions regionId with
    | none => .error .fatalError
    | some region => do
      let region ← region.markAsBlack value iso.baseColor
      .ok { iso with regions := insertA iso.regions regionId region }

/-- `Isolate::mark_as_gray` (`isolate.rs` lines 978-995), with the same
verbatim early return: every slotted value yields `Ok(false)` before the
region lookup is reached. -/
def markAsGray (iso : Isolate) (value : Value) : Except ErrorType (Bool × Isolate) :=
  if value.isSlotted then .ok (false, iso)
  else do
    let regionId ← value.getRegionId
    match lookupA iso.regions regionId with
    | none => .error .fatalError
    | some region => do
      let (grayed, region) ← region.markAsGray value iso.baseColor
      .ok (grayed, { iso with regions := insertA iso.regions regionId region })

/-- `Isolate::gain_slot` (`isolate.rs` lines 1381-1413): allocate in the
region, install the prototype as an own property under `prototype_symbol`,
apply the reference deltas, and run the (no-op for slotted values)
`mark_as_white`; the discarded barrier hook touches only the collector. -/
def gainSlot (iso : Isolate) (regionId : Nat) (primitiveType : PrimitiveType)
    (prototype : Value) : Except ErrorType (Value × Isolate) :=
  match lookupA iso.regions regionId with
  | none => .error .fatalError
  | some region => do
    let (id, region) ← region.gainSlot primitiveType
    let (region, _removedValues, _removedSymbols, addedValues, addedSymbols) ←
      region.overwriteOwnProperty id iso.prototypeSymbol prototype
    let iso := { iso with regions := insertA iso.regions regionId region }
    let iso ← addedValues.foldlM (fun iso v => iso.addValueReference id v) iso
    let iso ← addedSymbols.foldlM (fun iso s => iso.addSymbolReference s) iso
    let iso ← iso.markAsWhite id
    .ok (id, iso)

/-- `Isolate::create` (`isolate.rs` lines 106-172): create the initial region
(protected), allocate the eight builtin prototypes as `Object` slots in it
(the object prototype first with a `Null` prototype, the others inheriting
it), intern the `prototype` symbol, and unprotect the region.  Scope name
`"isolate.prototype"` and text `"prototype"` are the abstract keys 0 and 0. -/
def create : Except ErrorType Isolate := do
  let iso := Isolate.init
  let (regionId, iso) ← iso.createRegion
  let (objectPrototype, iso) ← iso.gainSlot regionId .object Value.makeNull
  let (booleanPrototype, iso) ← iso.gainSlot regionId .object objectPrototype
  let (integerPrototype, iso) ← iso.gainSlot regionId .object objectPrototype
  let (floatPrototype, iso) ← iso.gainSlot regionId .object objectPrototype
  let (symbolPrototype, iso) ← iso.gainSlot regionId .object objectPrototype
  let (textPrototype, iso) ← iso.gainSlot regionId .object objectPrototype
  let (listPrototype, iso) ← iso.gainSlot regionId .object objectPrototype
  let (tuplePrototype, iso) ← iso.gainSlot regionId .object objectPrototype
  let (prototypeSymbol, iso) := iso.getTextSymbol 0 0
  let iso :=
    { iso with
      objectPrototype := objectPrototype
      booleanPrototype := booleanPrototype
      integerPrototype := integerPrototype
      floatPrototype := floatPrototype
      symbolPrototype := symbolPrototype
      textPrototype := textPrototype
      listPrototype := listPrototype
      tuplePrototype := tuplePrototype
      prototypeSymbol := prototypeSymbol }
  let iso ← iso.unprotectRegion regionId
  .ok iso

/-- `Isolate::list_buitins` (`isolate.rs` lines 779-790), in source order. -/
def listBuiltins (iso : Isolate) : List Value :=
  [iso.booleanPrototype, iso.integerPrototype, iso.floatPrototype,
   iso.textPrototype, iso.symbolPrototype, iso.listPrototype,
   iso.tuplePrototype, iso.objectPrototype]

end Isolate

/-! ### The collector barrier callbacks (`src/collector.rs`) -/

/-- `MAX_SLICE_SIZE = 128`. -/
def maxSliceSize : Nat := 128

/-- `CollectorState` (`collector.rs` lines 30-38). -/
inductive CollectorState where
  | free
  | pending
  | markingRoots
  | markingGrays
  | remarkingGrays
  | sweeping
  | refragmenting
deriving DecidableEq, Repr

/-- The collector state touched by the barrier callbacks: the phase, the
barrier remarking slice, the flushed gray slices and the symbol mark set. -/
structure Collector where
  state : CollectorState
  barrierRemarkingSlice : List Value
  graySlices : List (List Value)
  symbolMarks : List Symbol

namespace Collector

/-- `Collector::new` (with the given initial state for examination; the
source starts at `Free`). -/
def new (state : CollectorState) : Collector := ⟨state, [], [], []⟩

/-- `Collector::mark_as_gray` against the barrier remarking slice
(`collector.rs` lines 545-566): symbols go to the symbol mark set; a value
the isolate grays (`mark_as_gray` returning `true`) is pushed onto the slice,
which is flushed into `gray_slices` at `MAX_SLICE_SIZE` entries. -/
def markAsGrayBarrier (c : Collector) (iso : Isolate) (value : Value) :
    Except ErrorType (Collector × Isolate) :=
  if value.isSymbol then
    .ok ({ c with symbolMarks := insertL c.symbolMarks (value.extractSymbol ⟨0⟩) }, iso)
  else do
    let (grayed, iso) ← iso.markAsGray value
    if grayed then
      let slice := c.barrierRemarkingSlice ++ [value]
      if slice.length = maxSliceSize then
        .ok ({ c with
               barrierRemarkingSlice := []
               graySlices := c.graySlices ++ [slice] }, iso)
      else
        .ok ({ c with barrierRemarkingSlice := slice }, iso)
    else .ok (c, iso)

/-- `Collector::preremove_value_reference` (`collector.rs` lines 301-313):
resolve the value, then re-gray it under the spin lock only in the
`MarkingGrays` state; every other state returns `Ok` untouched. -/
def preremoveValueReference (c : Collector) (iso : Isolate) (fuel : Nat)
    (value : Value) : Except ErrorType (Collector × Isolate) := do
  let value ← iso.resolveRealValue fuel value
  match c.state with
  | .markingGrays => c.markAsGrayBarrier iso value
  | _ => .ok (c, iso)

/-- `Collector::postgain_value` (`collector.rs` lines 315-327): the same
body as `preremove_value_reference`. -/
def postgainValue (c : Collector) (iso : Isolate) (fuel : Nat)
    (value : Value) : Except ErrorType (Collector × Isolate) := do
  let value ← iso.resolveRealValue fuel value
  match c.state with
  | .markingGrays => c.markAsGrayBarrier iso value
  | _ => .ok (c, iso)

end Collector

/-! ### Concrete scenario regions used by the witnesses -/

/-- A concrete region holding one mature object slot: `Region::new(0)`, then
`gain_slot(Object)` (which returns the value `Object(0, 0)`), then
`move_out_from_nursery` on that value. -/
def regionC4 : Region :=
  match (do
      let (v, r) ← (Region.new 0).gainSlot .object
      let r ← r.moveOutFromNursery v
      pure r : Except ErrorType Region) with
  | .ok r => r
  | .error _ => Region.new 0

/-- The result of `RegionSlot::recycle(slot, false)` on slot 0 of
`regionC4`: the updated record plus the referenced values and symbols. -/
def recresC4 : SlotRecord × List Value × List Symbol :=
  match RegionSlot.recycle (regionC4.slots 0) false with
  | .ok s => s
  | .error _ => (regionC4.slots 0, [], [])

/-- A concrete live sealed object slot with one recorded outer reference,
used by the sealed-slot witness. -/
def sealedSlotC3 : SlotRecord :=
  { regionId := 0
    slotIndex := 0
    color := 0
    outerReferenceMap := some ⟨1, [(Value.makeNull, 1)]⟩
    atomicSlot :=
      { live := true
        sealed := true
        primitiveType := .object
        prototype := Value.makeUndefined
        slotTrap := none
        ownPropertyTraps := []
        fieldShortcuts := none
        internalSlots := [] } }

/-- A concrete symbol scope holding one mature interned text symbol (not in
the nursery, no recorded references), used by the recycle witness. -/
def scC5 : SymbolScope := ⟨2, [(7, ⟨1⟩)], [], [(⟨1⟩, .textSymbol 7)], [], []⟩

/-- The scope left by a successful `recycle_symbol` on `scC5`. -/
def scC5res : SymbolScope :=
  match scC5.recycleSymbol ⟨1⟩ with
  | .ok sc => sc
  | .error _ => scC5

/-- A concrete one-field template (id 7, version 1, symbol 1 at index 0),
used by the field-shortcut witness. -/
def tC6 : FieldTemplate := ⟨7, 1, 1, [(⟨1⟩, 0)]⟩

/-- A concrete shortcut cache over `tC6` with the index-0 bit set and a
cached boolean. -/
def fsC6 : FieldShortcuts := ⟨1, tC6, 1, fun _ => Value.makeBoolean true⟩

/-- The template left by `tC6.addSymbol` on a fresh symbol. -/
def tC6added : FieldTemplate :=
  match tC6.addSymbol ⟨2⟩ with
  | .ok (_, t) => t
  | .error _ => tC6

/-- The template left by `tC6.removeSymbol` on its one symbol. -/
def tC6removed : FieldTemplate :=
  match tC6.removeSymbol ⟨1⟩ with
  | .ok t => t
  | .error _ => tC6

/-! ### Arithmetic facts about the integer/cardinal encoding -/

/-- Any bit pattern `INTEGER_PREFIX << 48 + payload` with a 33-bit payload
decodes to the `Integer` primitive type. -/
theorem getPrimitiveType_eq_integer_of_data (v : Value) (payload : Nat)
    (hd : v.data = 0x7ffa000000000000 + payload) (h : payload < 2 ^ 33) :
    v.getPrimitiveType = .integer := by
  have hnan : bitsIsNan v.data = true := by
    rw [hd]
    simp only [bitsIsNan, Bool.and_eq_true, decide_eq_true_eq, ne_eq]
    exact ⟨by omega, by omega⟩
  have h48 : v.data / 2 ^ 48 = 0x7ffa := by rw [hd]; omega
  unfold Value.getPrimitiveType
  rw [if_neg (by simp [hnan])]
  simp only [h48, tagNan, tagNilOrBoolean, tagInteger]
  norm_num

/-- `get_cardinal_data` recovers the `u32` stored by `make_cardinal`. -/
theorem getCardinalData_makeCardinal (u : Nat) (h : u < 2 ^ 32) :
    Value.getCardinalData (Value.makeCardinal u) = .ok u := by
  have hd : (Value.makeCardinal u).data = 0x7ffa000000000000 + u := by
    simp only [Value.makeCardinal, tagInteger]
    omega
  have ht : (Value.makeCardinal u).getPrimitiveType = .integer :=
    getPrimitiveType_eq_integer_of_data _ u hd (by omega)
  simp only [Value.getCardinalData, ht]
  rw [hd, if_pos (by omega)]
  congr 1
  omega

/-- `get_integer_data` recovers the `i32` stored by `make_integer`. -/
theorem getIntegerData_makeInteger (x : Int) (h0 : -2 ^ 31 ≤ x) (h1 : x < 2 ^ 31) :
    Value.getIntegerData (Value.makeInteger x) = .ok x := by
  by_cases hx : x < 0
  · have hd : (Value.makeInteger x).data
        = 0x7ffa000000000000 + (2 ^ 32 + (x + 2 ^ 32).toNat) := by
      simp only [Value.makeInteger]
      rw [if_pos hx]
      simp only [tagInteger]
      omega
    have ht : (Value.makeInteger x).getPrimitiveType = .integer :=
      getPrimitiveType_eq_integer_of_data _ _ hd (by omega)
    simp only [Value.getIntegerData, ht]
    rw [hd]
    have hlow : (0x7ffa000000000000 + (2 ^ 32 + (x + 2 ^ 32).toNat)) % 2 ^ 32
        = (x + 2 ^ 32).toNat := by omega
    have hbit : (0x7ffa000000000000 + (2 ^ 32 + (x + 2 ^ 32).toNat)) / 2 ^ 32 % 2
        = 1 := by omega
    rw [hlow, hbit]
    have hval : (if (x + 2 ^ 32).toNat < 2 ^ 31 then (((x + 2 ^ 32).toNat : Nat) : Int)
        else (((x + 2 ^ 32).toNat : Nat) : Int) - 2 ^ 32) = x := by
      rw [if_neg (by omega)]; omega
    rw [hval, if_pos (Or.inl rfl)]
  · have hd : (Value.makeInteger x).data
        = 0x7ffa000000000000 + (0 + x.toNat) := by
      simp only [Value.makeInteger]
      rw [if_neg hx]
      simp only [tagInteger]
      omega
    have ht : (Value.makeInteger x).getPrimitiveType = .integer :=
      getPrimitiveType_eq_integer_of_data _ _ hd (by omega)
    simp only [Value.getIntegerData, ht]
    rw [hd]
    have hlow : (0x7ffa000000000000 + (0 + x.toNat)) % 2 ^ 32 = x.toNat := by omega
    rw [hlow]
    have hval : (if x.toNat < 2 ^ 31 then ((x.toNat : Nat) : Int)
        else ((x.toNat : Nat) : Int) - 2 ^ 32) = x := by
      rw [if_pos (by omega)]; omega
    rw [hval, if_pos (Or.inr (by omega))]

/-- A cardinal at or above `2^31` is rejected by the strict signed read. -/
theorem getIntegerData_makeCardinal_high (u : Nat) (h0 : 2 ^ 31 ≤ u) (h1 : u < 2 ^ 32) :
    Value.getIntegerData (Value.makeCardinal u) = .error .integerOutOfRange := by
  have hd : (Value.makeCardinal u).data = 0x7ffa000000000000 + u := by
    simp only [Value.makeCardinal, tagInteger]
    omega
  have ht : (Value.makeCardinal u).getPrimitiveType = .integer :=
    getPrimitiveType_eq_integer_of_data _ u hd (by omega)
  simp only [Value.getIntegerData, ht]
  rw [hd]
  have hlow : (0x7ffa000000000000 + u) % 2 ^ 32 = u := by omega
  have hbit : (0x7ffa000000000000 + u) / 2 ^ 32 % 2 = 0 := by omega
  rw [hlow, hbit]
  have hval : (if u < 2 ^ 31 then ((u : Nat) : Int) else ((u : Nat) : Int) - 2 ^ 32)
      = (u : Int) - 2 ^ 32 := by
    rw [if_neg (by omega)]
  rw [hval, if_neg (by rintro (hc | hc) <;> omega)]

/-- A negative signed integer is rejected by the strict cardinal read. -/
theorem getCardinalData_makeInteger_neg (x : Int) (h0 : -2 ^ 31 ≤ x) (h1 : x < 0) :
    Value.getCardinalData (Value.makeInteger x) = .error .integerOutOfRange := by
  have hd : (Value.makeInteger x).data
      = 0x7ffa000000000000 + (2 ^ 32 + (x + 2 ^ 32).toNat) := by
    simp only [Value.makeInteger]
    rw [if_pos h1]
    simp only [tagInteger]
    omega
  have ht : (Value.makeInteger x).getPrimitiveType = .integer :=
    getPrimitiveType_eq_integer_of_data _ _ hd (by omega)
  simp only [Value.getCardinalData, ht]
  rw [hd, if_neg (by omega)]

/-- For a non-negative `i32`, `make_integer` and `make_cardinal` build the same
bit pattern (bit 32 is only set for negative inputs). -/
theorem makeInteger_nonneg_eq_makeCardinal (x : Int) (h0 : 0 ≤ x) (h1 : x < 2 ^ 31) :
    Value.makeInteger x = Value.makeCardinal x.toNat := by
  simp only [Value.makeInteger, Value.makeCardinal, if_neg (by omega : ¬ x < 0)]
  congr 1
  omega

/-- A non-negative `make_integer` result satisfies `is_cardinal`. -/
theorem isCardinal_makeInteger_nonneg (x : Int) (h0 : 0 ≤ x) (h1 : x < 2 ^ 31) :
    Value.isCardinal (Value.makeInteger x) = true := by
  have hd : (Value.makeInteger x).data = 0x7ffa000000000000 + (0 + x.toNat) := by
    simp only [Value.makeInteger]
    rw [if_neg (by omega : ¬ x < 0)]
    simp only [tagInteger]
    omega
  have ht : (Value.makeInteger x).getPrimitiveType = .integer :=
    getPrimitiveType_eq_integer_of_data _ _ hd (by omega)
  simp only [Value.isCardinal, ht, Bool.or_eq_true, decide_eq_true_eq]
  rw [hd]
  left
  omega

/-! ### Shared lemmas about the association-list helpers -/

/-- Removing a key makes its lookup miss. -/
theorem lookupA_removeA {α β : Type} [DecidableEq α] (l : List (α × β)) (k : α) :
    lookupA (removeA l k) k = none := by
  induction l with
  | nil => rfl
  | cons kv rest ih =>
    by_cases h : kv.1 = k
    · simpa [removeA, h] using ih
    · simpa [removeA, lookupA, h] using ih

/-! ### Claim theorems -/

/-- C1.  Integer/cardinal round-trip and strict extraction: for every `i32`
`x`, `get_integer_data (make_integer x) = Ok x`; for every `u32` `u`,
`get_cardinal_data (make_cardinal u) = Ok u`; for `u ≥ 2^31`,
`get_integer_data (make_cardinal u)` errors `IntegerOutOfRange`; and for
`x < 0`, `get_cardinal_data (make_integer x)` errors `IntegerOutOfRange`. -/
theorem integer_cardinal_strict_round_trip :
    (∀ x : Int, -2 ^ 31 ≤ x → x < 2 ^ 31 →
      Value.getIntegerData (Value.makeInteger x) = .ok x) ∧
    (∀ u : Nat, u < 2 ^ 32 →
      Value.getCardinalData (Value.makeCardinal u) = .ok u) ∧
    (∀ u : Nat, 2 ^ 31 ≤ u → u < 2 ^ 32 →
      Value.getIntegerData (Value.makeCardinal u) = .error .integerOutOfRange) ∧
    (∀ x : Int, -2 ^ 31 ≤ x → x < 0 →
      Value.getCardinalData (Value.makeInteger x) = .error .integerOutOfRange) :=
  ⟨getIntegerData_makeInteger, getCardinalData_makeCardinal,
   getIntegerData_makeCardinal_high, getCardinalData_makeInteger_neg⟩

/-- C1, witness: the round trips and strict failures at `-5`, `0xffffffff`,
`0x80000000` and `-1`. -/
theorem integer_cardinal_strict_round_trip_witness :
    Value.getIntegerData (Value.makeInteger (-5)) = .ok (-5) ∧
    Value.getCardinalData (Value.makeCardinal 0xffffffff) = .ok 0xffffffff ∧
    Value.getIntegerData (Value.makeCardinal 0x80000000)
      = .error .integerOutOfRange ∧
    Value.getCardinalData (Value.makeInteger (-1)) = .error .integerOutOfRange :=
  ⟨integer_cardinal_strict_round_trip.1 (-5) (by norm_num) (by norm_num),
   integer_cardinal_strict_round_trip.2.1 0xffffffff (by norm_num),
   integer_cardinal_strict_round_trip.2.2.1 0x80000000 (by norm_num) (by norm_num),
   integer_cardinal_strict_round_trip.2.2.2 (-1) (by norm_num) (by norm_num)⟩

/-- C2.  The claim states that `is_list` is true only for the `List` tag and
in particular false on booleans; the source's `is_list` (`value.rs` lines
357-365) instead returns `true` for the `Boolean` tag as well (its `Boolean`
match arm), so `is_list (make_boolean _) = true` while both booleans decode to
the `Boolean` primitive type.  This evaluates the code at the failing
inputs. -/
theorem is_list_true_on_boolean_values :
    Value.isList (Value.makeBoolean true) = true ∧
    Value.isList (Value.makeBoolean false) = true ∧
    Value.getPrimitiveType (Value.makeBoolean true) = .boolean ∧
    Value.getPrimitiveType (Value.makeBoolean false) = .boolean ∧
    Value.getPrimitiveType (Value.makeList 0 0) = .list := by
  constructor
  · rfl
  · exact ⟨rfl, rfl, rfl, rfl⟩

/-- C10.  Non-negative signed integers and cardinals share one encoding:
`make_integer x` and `make_cardinal x` are bitwise identical for
`0 ≤ x < 2^31`, hence `is_cardinal` holds and `get_cardinal_data` reads the
value back. -/
theorem nonneg_integer_shares_cardinal_encoding :
    ∀ x : Int, 0 ≤ x → x < 2 ^ 31 →
      Value.makeInteger x = Value.makeCardinal x.toNat ∧
      Value.isCardinal (Value.makeInteger x) = true ∧
      Value.getCardinalData (Value.makeInteger x) = .ok x.toNat := by
  intro x h0 h1
  refine ⟨makeInteger_nonneg_eq_makeCardinal x h0 h1,
    isCardinal_makeInteger_nonneg x h0 h1, ?_⟩
  rw [makeInteger_nonneg_eq_makeCardinal x h0 h1]
  exact getCardinalData_makeCardinal x.toNat (by omega)

/-- C10, witness: the shared encoding at `x = 17`. -/
theorem nonneg_integer_shares_cardinal_encoding_witness :
    Value.makeInteger 17 = Value.makeCardinal (17 : Int).toNat ∧
    Value.isCardinal (Value.makeInteger 17) = true ∧
    Value.getCardinalData (Value.makeInteger 17) = .ok (17 : Int).toNat :=
  nonneg_integer_shares_cardinal_encoding 17 (by norm_num) (by norm_num)

/-- C9.  The claim demands that a token holding a read lease and no write
lease can upgrade to the write lease without faulting; the source instead
panics in `lock_write` (`reentrant_lock.rs` lines 219-221) and returns an
unlocked guard from `try_lock_write` (lines 256-261) in exactly that state,
as its own `test_lock` asserts.  This exhibits the failure on the reachable
state produced by a fresh token taking one read lease. -/
theorem lock_write_upgrade_counterexample :
    ReentrantLock.lockRead ⟨0, 0⟩ ⟨1, 2, 0, 0⟩ = .acquired ⟨0, 1⟩ ⟨1, 2, 1, 0⟩ ∧
    ReentrantLock.lockWrite ⟨0, 1⟩ ⟨1, 2, 1, 0⟩ = .fault ∧
    ReentrantLock.tryLockWrite ⟨0, 1⟩ ⟨1, 2, 1, 0⟩ = (⟨0, 1⟩, ⟨1, 2, 1, 0⟩, false) := by
  refine ⟨?_, ?_, ?_⟩ <;> rfl

/-- C9, amended.  A token holding a read lease with no write lease cannot
upgrade: `lock_write` faults and `try_lock_write` yields an unlocked guard
leaving the state untouched; writer acquisition is reentrant only when the
token already holds a write lease. -/
theorem lock_write_no_read_to_write_upgrade
    (lk : ReentrantLock) (tk : ReentrantToken)
    (hr : 0 < tk.reading) (hw : tk.writing = 0) :
    ReentrantLock.lockWrite lk tk = .fault ∧
    ReentrantLock.tryLockWrite lk tk = (lk, tk, false) ∧
    (∀ tk' : ReentrantToken, 0 < tk'.writing →
      ReentrantLock.lockWrite lk tk'
        = .acquired lk { tk' with writing := tk'.writing + 1 } true) := by
  refine ⟨?_, ?_, ?_⟩
  · simp [ReentrantLock.lockWrite, hr, hw]
  · simp [ReentrantLock.tryLockWrite, hr, hw]
  · intro tk' hw'
    simp [ReentrantLock.lockWrite, Nat.pos_iff_ne_zero.mp hw']

/-- C9, witness: the amended statement at the one-read-lease state. -/
theorem lock_write_no_read_to_write_upgrade_witness :
    ReentrantLock.lockWrite ⟨0, 1⟩ ⟨1, 2, 1, 0⟩ = .fault ∧
    ReentrantLock.tryLockWrite ⟨0, 1⟩ ⟨1, 2, 1, 0⟩ = (⟨0, 1⟩, ⟨1, 2, 1, 0⟩, false) ∧
    (∀ tk' : ReentrantToken, 0 < tk'.writing →
      ReentrantLock.lockWrite ⟨0, 1⟩ tk'
        = .acquired ⟨0, 1⟩ { tk' with writing := tk'.writing + 1 } true) :=
  lock_write_no_read_to_write_upgrade ⟨0, 1⟩ ⟨1, 2, 1, 0⟩ (by norm_num) rfl

/-- C8.  The claim asserts the isolate's initial region has id 1; the page
map hands out index 0 first (`PageMap::gain_item` starting from
`next_index = 0`, as `page_map.rs`'s own `test_page_map_items` asserts), so
`Isolate::create`'s region — and every builtin prototype's region id — is 0,
not 1. -/
theorem isolate_create_initial_region_id_counterexample :
    (Isolate.init.createRegion.map Prod.fst) = .ok 0 ∧
    ¬ (Isolate.init.createRegion.map Prod.fst) = .ok 1 ∧
    (Isolate.create.map fun iso => iso.objectPrototype.getRegionId)
      = .ok (.ok 0) := by
  refine ⟨by rfl, by decide, by rfl⟩

/-- C8, amended.  `Isolate::create` creates its initial region with id 0 and
protects it, allocates the eight builtin prototypes as `Object` slots 0..7 of
that region (object, boolean, integer, float, symbol, text, list, tuple in
allocation order), and unprotects the region before returning; every builtin
prototype accessor yields an `Object` slot of region 0. -/
theorem isolate_create_builtin_prototypes :
    (Isolate.init.createRegion.map fun p =>
        (p.1, memL p.2.protectedRegionIds p.1)) = .ok (0, true) ∧
    (Isolate.create.map fun iso =>
        (iso.objectPrototype, iso.booleanPrototype, iso.integerPrototype,
         iso.floatPrototype, iso.symbolPrototype, iso.textPrototype,
         iso.listPrototype, iso.tuplePrototype))
      = .ok (Value.makeObject 0 0, Value.makeObject 0 1, Value.makeObject 0 2,
             Value.makeObject 0 3, Value.makeObject 0 4, Value.makeObject 0 5,
             Value.makeObject 0 6, Value.makeObject 0 7) ∧
    (Isolate.create.map fun iso =>
        iso.listBuiltins.map fun v => (v.getPrimitiveType, v.getRegionId))
      = .ok (List.replicate 8 (.object, .ok 0)) ∧
    (Isolate.create.map fun iso => iso.protectedRegionIds) = .ok [] ∧
    (Isolate.create.map fun iso =>
        (lookupA iso.regions 0).map fun r =>
          (r.occupied, r.nextEmptySlotIndex,
           (List.range 8).map fun i => (r.slots i).isAlive))
      = .ok (some (8, 8, List.replicate 8 true)) := by
  refine ⟨by rfl, by rfl, by rfl, by rfl, by rfl⟩

/-- C7.  The claim (with the spec) says the barrier callbacks re-gray the
resolved value into the barrier remarking slice during `MarkingGrays`.  In
the source, `Isolate::mark_as_gray` returns `Ok(false)` for every slotted
value before reaching any region (`isolate.rs` lines 978-995, the
`if value.is_slotted() { return Ok(false); }` guard), so
`Collector::mark_as_gray` never pushes a heap value onto the slice: on a
freshly allocated, live, white `Object` slot, `preremove_value_reference`
and `postgain_value` in `MarkingGrays` return `Ok` with the slice, the gray
slices, the symbol marks and the slot's color all unchanged — and the
callbacks are indeed no-ops in every other state. -/
theorem collector_barrier_never_regrays_slotted_values :
    ((do
      let (v, r) ← (Region.new 0).gainSlot .object
      let iso := { Isolate.init with regions := insertA [] 0 r }
      let c := Collector.new .markingGrays
      let white ← RegionSlot.isWhite (r.slots 0) iso.baseColor
      let (c, iso) ← c.preremoveValueReference iso 8 v
      let (c, iso) ← c.postgainValue iso 8 v
      let whiteAfter ← (do
        match lookupA iso.regions 0 with
        | some r => RegionSlot.isWhite (r.slots 0) iso.baseColor
        | none => .error .fatalError)
      .ok (white, whiteAfter, c.barrierRemarkingSlice, c.graySlices,
           c.symbolMarks)) :
        Except ErrorType (Bool × Bool × List Value × List (List Value) × List Symbol))
      = .ok (true, true, [], [], []) ∧
    ((do
      let (v, r) ← (Region.new 0).gainSlot .object
      let iso := { Isolate.init with regions := insertA [] 0 r }
      let c := Collector.new .free
      let (c, _) ← c.preremoveValueReference iso 8 v
      .ok c.barrierRemarkingSlice) : Except ErrorType (List Value))
      = .ok [] ∧
    ((do
      let (v, r) ← (Region.new 0).gainSlot .object
      let iso := { Isolate.init with regions := insertA [] 0 r }
      let c := Collector.new .sweeping
      let (c, _) ← c.postgainValue iso 8 v
      .ok c.barrierRemarkingSlice) : Except ErrorType (List Value))
      = .ok [] := by
  refine ⟨by rfl, by rfl, by rfl⟩

/-! ### Word-bitmap lemmas for the region claims -/

/-- Setting bit `s` of a word makes `(word >> s) & 1` read 1. -/
theorem div_mod_two_of_set_bit (p a : Nat) (hp : 0 < p) :
    (a + (1 - a / p % 2) * p) / p % 2 = 1 := by
  rcases Nat.mod_two_eq_zero_or_one (a / p) with h | h
  · rw [h]
    simp only [Nat.sub_zero, one_mul]
    rw [Nat.add_div_right _ hp]
    omega
  · rw [h]
    simpa using h

/-- Clearing bit `s` of a word makes `(word >> s) & 1` read 0. -/
theorem div_mod_two_of_clear_bit (p a : Nat) (hp : 0 < p) :
    (a - a / p % 2 * p) / p % 2 = 0 := by
  rcases Nat.mod_two_eq_zero_or_one (a / p) with h | h
  · rw [h]
    simpa using h
  · rw [h, one_mul]
    have hmlt : a % p < p := Nat.mod_lt _ hp
    have ha : p * (a / p) + a % p = a := Nat.div_add_mod a p
    have hq1 : 1 ≤ a / p := by
      rcases Nat.eq_zero_or_pos (a / p) with h0 | h0
      · rw [h0] at h
        simp at h
      · exact h0
    obtain ⟨k, hk⟩ : ∃ k, a / p = k + 1 := ⟨a / p - 1, by omega⟩
    have ha' : a = p * k + p + a % p := by
      conv_lhs => rw [← ha]
      rw [hk]
      ring
    have hsub : a - p = p * k + a % p := by omega
    rw [hsub, Nat.mul_add_div hp, Nat.div_eq_of_lt hmlt]
    omega

/-- In-range list updates are read back. -/
theorem wordGet_set (w : List Nat) (o x : Nat) (h : o < w.length) :
    wordGet (w.set o x) o = x := by
  induction w generalizing o with
  | nil => simp at h
  | cons a w ih =>
    cases o with
    | zero => rfl
    | succ o =>
      simp only [List.set_cons_succ]
      exact ih o (by simpa using h)

/-- A set occupancy bit implies the word offset is within the bitmap. -/
theorem lt_length_of_wordTestBit (w : List Nat) (o s : Nat)
    (h : wordTestBit w o s = true) : o < w.length := by
  by_contra hlen
  push_neg at hlen
  have hz : wordGet w o = 0 := by
    simp [wordGet, List.getD, List.getElem?_eq_none hlen]
  simp [wordTestBit, hz] at h

/-- `wordSetBit` sets the addressed bit. -/
theorem wordTestBit_wordSetBit (w : List Nat) (o s : Nat) (h : o < w.length) :
    wordTestBit (wordSetBit w o s) o s = true := by
  simp only [wordTestBit, wordSetBit, wordGet_set _ _ _ h, decide_eq_true_eq]
  exact div_mod_two_of_set_bit (2 ^ s) (wordGet w o) (Nat.pos_pow_of_pos s (by norm_num))

/-- `wordClearBit` clears the addressed bit. -/
theorem wordTestBit_wordClearBit (w : List Nat) (o s : Nat) (h : o < w.length) :
    wordTestBit (wordClearBit w o s) o s = false := by
  simp only [wordTestBit, wordClearBit, wordGet_set _ _ _ h,
    decide_eq_false_iff_not]
  intro hcontra
  have := div_mod_two_of_clear_bit (2 ^ s) (wordGet w o)
    (Nat.pos_pow_of_pos s (by norm_num))
  omega

/-- C4, counterexample.  On a region holding one mature object slot,
`recycle_slot(v, false)` clears the occupancy bitmap bit (it reads back
`false`), contradicting the claim's "occupancy bitmap bit still set"; the
empties bit stays clear and the occupied count stays 1 as the claim says.
The clearing is unconditional at `region.rs` lines 336-339, before the
`drop_value` branch. -/
theorem region_recycle_slot_drop_false_counterexample :
    ((do
      let (v, r) ← (Region.new 0).gainSlot .object
      let r ← r.moveOutFromNursery v
      let r ← r.recycleSlot v false
      pure (wordTestBit r.bitmap 0 0, wordTestBit r.empties 0 0,
            r.occupied)) : Except ErrorType (Bool × Bool × Nat))
      = .ok (false, false, 1) := by
  rfl

/-- C4, amended.  `Region::recycle_slot(v, drop)` fails `FatalError` while
`v` is in the nursery, while a live slot still has outer references, or while
any redirection points at `v`; with `drop = false` it leaves the empties bit
clear and the occupied count unchanged (the slot keeps hosting a redirection
record) but — unlike the claim's "occupancy bitmap bit still set" — it clears
the occupancy bit as well; with `drop = true` it clears the occupancy bit,
sets the empties bit and decrements the occupied count. -/
theorem region_recycle_slot_contract (r : Region) (v : Value) (slotIdx : Nat)
    (hid : v.getRegionId = .ok r.id) (hslot : v.getRegionSlot = .ok slotIdx)
    (hbit : wordTestBit r.bitmap (slotIdx / 2 ^ 6) (slotIdx % 2 ^ 6) = true)
    (hlen : slotIdx / 2 ^ 6 < r.empties.length) :
    (memL r.nursery v = true →
      ∀ dropValue, r.recycleSlot v dropValue = .error .fatalError) ∧
    (memL r.nursery v = false → (r.slots slotIdx).isAlive = true →
      (r.slots slotIdx).hasNoOuterReferences = false →
      ∀ dropValue, r.recycleSlot v dropValue = .error .fatalError) ∧
    (memL r.nursery v = false →
      ((r.slots slotIdx).isAlive && ! (r.slots slotIdx).hasNoOuterReferences)
        = false →
      (lookupA r.redirectionFroms v).isSome = true →
      ∀ dropValue, r.recycleSlot v dropValue = .error .fatalError) ∧
    (∀ recres,
      memL r.nursery v = false →
      ((r.slots slotIdx).isAlive && ! (r.slots slotIdx).hasNoOuterReferences)
        = false →
      (lookupA r.redirectionFroms v).isSome = false →
      RegionSlot.recycle (r.slots slotIdx) false = .ok recres →
      (r.recycleSlot v false).map
          (fun r' => (wordTestBit r'.bitmap (slotIdx / 2 ^ 6) (slotIdx % 2 ^ 6),
                      r'.empties, r'.occupied))
        = .ok (false, r.empties, r.occupied)) ∧
    (∀ recres,
      memL r.nursery v = false →
      ((r.slots slotIdx).isAlive && ! (r.slots slotIdx).hasNoOuterReferences)
        = false →
      (lookupA r.redirectionFroms v).isSome = false →
      RegionSlot.recycle (r.slots slotIdx) true = .ok recres →
      (r.recycleSlot v true).map
          (fun r' => (wordTestBit r'.bitmap (slotIdx / 2 ^ 6) (slotIdx % 2 ^ 6),
                      wordTestBit r'.empties (slotIdx / 2 ^ 6) (slotIdx % 2 ^ 6),
                      r'.occupied))
        = .ok (false, true, r.occupied - 1)) := by
  have hblen : slotIdx / 2 ^ 6 < r.bitmap.length :=
    lt_length_of_wordTestBit _ _ _ hbit
  have hclear : wordTestBit (wordClearBit r.bitmap (slotIdx / 2 ^ 6)
      (slotIdx % 2 ^ 6)) (slotIdx / 2 ^ 6) (slotIdx % 2 ^ 6) = false :=
    wordTestBit_wordClearBit _ _ _ hblen
  have hset : wordTestBit (wordSetBit r.empties (slotIdx / 2 ^ 6)
      (slotIdx % 2 ^ 6)) (slotIdx / 2 ^ 6) (slotIdx % 2 ^ 6) = true :=
    wordTestBit_wordSetBit _ _ _ hlen
  have hbit64 : wordTestBit r.bitmap (slotIdx / 64) (slotIdx % 64) = true := by
    simpa using hbit
  have hclear64 : wordTestBit (wordClearBit r.bitmap (slotIdx / 64)
      (slotIdx % 64)) (slotIdx / 64) (slotIdx % 64) = false := by
    simpa using hclear
  have hset64 : wordTestBit (wordSetBit r.empties (slotIdx / 64)
      (slotIdx % 64)) (slotIdx / 64) (slotIdx % 64) = true := by
    simpa using hset
  refine ⟨?_, ?_, ?_, ?_, ?_⟩
  · intro hnur dropValue
    simp [Region.recycleSlot, hid, hslot, hbit, hnur, Except.bind, bind]
  · intro hnur halive houter dropValue
    simp [Region.recycleSlot, hid, hslot, hbit, hnur, halive, houter,
      Except.bind, bind]
  · intro hnur hcheck hfrom dropValue
    simp [Region.recycleSlot, hid, hslot, hbit, hnur, hcheck, hfrom,
      Except.bind, bind]
  · intro recres hnur hcheck hfrom hrec
    simp [Region.recycleSlot, hid, hslot, hbit, hnur, hcheck, hfrom, hrec,
      Except.bind, bind, Region.setSlot, Except.map, hclear, hbit64, hclear64]
  · intro recres hnur hcheck hfrom hrec
    simp [Region.recycleSlot, hid, hslot, hbit, hnur, hcheck, hfrom, hrec,
      Except.bind, bind, Region.setSlot, Except.map, hclear, hset, hbit64,
      hclear64, hset64]

/-- Witness for C4: the drop-false effect of the amended theorem, applied to
the concrete one-slot region `regionC4` at slot 0. -/
theorem region_recycle_slot_contract_witness :
    (regionC4.recycleSlot (Value.makeObject 0 0) false).map
        (fun r => (wordTestBit r.bitmap (0 / 2 ^ 6) (0 % 2 ^ 6),
                   r.empties, r.occupied))
      = .ok (false, regionC4.empties, regionC4.occupied) :=
  (region_recycle_slot_contract regionC4 (Value.makeObject 0 0) 0
      (by rfl) (by rfl) (by rfl) (by decide)).2.2.2.1
    recresC4 (by rfl) (by rfl) (by rfl) (by rfl)

/-- C3.  Spec-modelled for `set_prototype` (its `RegionSlot` body is missing
from the `src/` snapshot): on a live sealed slot every content mutation —
`set_own_property`, `define_own_property`, `delete_own_property`,
`set_slot_trap`, `clear_slot_trap`, `set_internal_slot`,
`clear_internal_slot`, `set_prototype` — fails `MutatingSealedProperty`
(returning no new slot state, so the slot is unchanged), while reference
bookkeeping (`add_outer_reference`, and `remove_outer_reference` whenever a
count is recorded) and the color marks (`mark_as_white/black/gray`) succeed
with the seal flag still set; `seal_slot` itself keeps the flag, so sealing
is one-way across the listed operations. -/
theorem sealed_slot_invariant (r : SlotRecord) (resolve : Value → Value)
    (sym : Symbol) (v : Value) (slotTrap : SlotTrap)
    (propertyTrap : PropertyTrap) (slotId : Nat) (internalSlot : InternalSlot)
    (base : Nat) (h1 : r.isAlive = true) (h2 : r.isSealed = true) :
    RegionSlot.setOwnPropertyIgnoreSlotTrap r resolve sym v
      = .error .mutatingSealedProperty ∧
    RegionSlot.defineOwnPropertyIgnoreSlotTrap r sym propertyTrap
      = .error .mutatingSealedProperty ∧
    RegionSlot.deleteOwnPropertyIgnoreSlotTrap r sym
      = .error .mutatingSealedProperty ∧
    RegionSlot.setSlotTrap r slotTrap = .error .mutatingSealedProperty ∧
    RegionSlot.clearSlotTrap r = .error .mutatingSealedProperty ∧
    RegionSlot.setInternalSlot r slotId internalSlot
      = .error .mutatingSealedProperty ∧
    RegionSlot.clearInternalSlot r slotId = .error .mutatingSealedProperty ∧
    RegionSlot.setPrototypeIgnoreSlotTrap r v
      = .error .mutatingSealedProperty ∧
    (RegionSlot.addOuterReference r v).map SlotRecord.isSealed = .ok true ∧
    (∀ m c, r.outerReferenceMap = some m → lookupA m.counts v = some c →
      0 < c →
      (RegionSlot.removeOuterReference r v).map SlotRecord.isSealed
        = .ok true) ∧
    (RegionSlot.markAsWhite r base).map SlotRecord.isSealed = .ok true ∧
    (RegionSlot.markAsBlack r base).map SlotRecord.isSealed = .ok true ∧
    (RegionSlot.markAsGray r base).map SlotRecord.isSealed = .ok true ∧
    (RegionSlot.sealSlot r).map SlotRecord.isSealed = .ok true := by
  have h2' : r.atomicSlot.sealed = true := h2
  refine ⟨?_, ?_, ?_, ?_, ?_, ?_, ?_, ?_, ?_, ?_, ?_, ?_, ?_, ?_⟩
  · simp [RegionSlot.setOwnPropertyIgnoreSlotTrap, h1, h2]
  · simp [RegionSlot.defineOwnPropertyIgnoreSlotTrap, h1, h2]
  · simp [RegionSlot.deleteOwnPropertyIgnoreSlotTrap, h1, h2]
  · simp [RegionSlot.setSlotTrap, h1, h2]
  · simp [RegionSlot.clearSlotTrap, h1, h2]
  · simp [RegionSlot.setInternalSlot, h1, h2]
  · simp [RegionSlot.clearInternalSlot, h1, h2]
  · simp [RegionSlot.setPrototypeIgnoreSlotTrap, h1, h2]
  · cases hm : r.outerReferenceMap <;>
      simp [RegionSlot.addOuterReference, h1, hm, ReferenceMap.addReference,
        Except.bind, bind, Except.map, SlotRecord.isSealed, h2']
  · intro m c hm hc hcpos
    have hc0 : ¬ (c = 0) := by omega
    by_cases hgt : c > 1
    · simp only [RegionSlot.removeOuterReference, h1, hm,
        ReferenceMap.removeReference, hc, Except.bind, bind, if_neg hc0,
        if_pos hgt, eq_self_iff_true, not_true, Bool.not_eq_true,
        Bool.false_eq_true, if_false]
      split <;> simp [Except.map, SlotRecord.isSealed, h2']
    · simp only [RegionSlot.removeOuterReference, h1, hm,
        ReferenceMap.removeReference, hc, Except.bind, bind, if_neg hc0,
        if_neg hgt, eq_self_iff_true, not_true, Bool.not_eq_true,
        Bool.false_eq_true, if_false]
      split <;> simp [Except.map, SlotRecord.isSealed, h2']
  · simp [RegionSlot.markAsWhite, h1, Except.map, SlotRecord.isSealed, h2']
  · simp [RegionSlot.markAsBlack, h1, Except.map, SlotRecord.isSealed, h2']
  · simp [RegionSlot.markAsGray, h1, Except.map, SlotRecord.isSealed, h2']
  · simp [RegionSlot.sealSlot, h1, Except.map, SlotRecord.isSealed]

/-- Witness for C3: the invariant applied to a concrete live sealed object
slot carrying one outer reference. -/
theorem sealed_slot_invariant_witness :
    sealedSlotC3.isAlive = true ∧ sealedSlotC3.isSealed = true ∧
    RegionSlot.setSlotTrap sealedSlotC3 ⟨[], []⟩
      = .error .mutatingSealedProperty ∧
    RegionSlot.setPrototypeIgnoreSlotTrap sealedSlotC3 Value.makeNull
      = .error .mutatingSealedProperty ∧
    (RegionSlot.addOuterReference sealedSlotC3 Value.makeNull).map
      SlotRecord.isSealed = .ok true ∧
    (RegionSlot.removeOuterReference sealedSlotC3 Value.makeNull).map
      SlotRecord.isSealed = .ok true ∧
    (RegionSlot.markAsGray sealedSlotC3 0).map SlotRecord.isSealed
      = .ok true :=
  have h := sealed_slot_invariant sealedSlotC3 (fun v => v) ⟨1⟩
    Value.makeNull ⟨[], []⟩ ⟨Value.makeNull, true⟩ 0 ⟨[], []⟩ 0
    (by rfl) (by rfl)
  ⟨by rfl, by rfl, h.2.2.2.1, h.2.2.2.2.2.2.2.1, h.2.2.2.2.2.2.2.2.1,
   h.2.2.2.2.2.2.2.2.2.1 ⟨1, [(Value.makeNull, 1)]⟩ 1 (by rfl) (by rfl)
     (by decide),
   h.2.2.2.2.2.2.2.2.2.2.2.2.1⟩

/-- C5.  `SymbolScope::recycle_symbol(s)` fails `FatalError` exactly when `s`
is still in the nursery, a reference count is recorded for `s`, or no symbol
record exists for `s`; a success removes the record, so a subsequent
`get_symbol_record(s)` returns `None`.  For a freshly interned text symbol
the recycle fails (nursery) and keeps failing after a lone
`add_symbol_reference` (count recorded), but succeeds after
`add_symbol_reference` followed by `remove_symbol_reference`. -/
theorem recycle_symbol_contract (sc : SymbolScope) (s : Symbol) :
    ((∃ sc2, sc.recycleSymbol s = .ok sc2) ↔
      (memL sc.symbolNursery s = false ∧
       lookupA sc.symbolReferences s = none ∧
       (lookupA sc.symbolRecords s).isSome = true)) ∧
    (∀ sc2, sc.recycleSymbol s = .ok sc2 →
      sc2.getSymbolRecord s = none) ∧
    ((SymbolScope.new.getTextSymbol 7).2.recycleSymbol
        (SymbolScope.new.getTextSymbol 7).1 = .error .fatalError) ∧
    ((do
        let sc1 ← (SymbolScope.new.getTextSymbol 7).2.addSymbolReference
          (SymbolScope.new.getTextSymbol 7).1
        sc1.recycleSymbol (SymbolScope.new.getTextSymbol 7).1)
      = .error .fatalError) ∧
    ((do
        let sc1 ← (SymbolScope.new.getTextSymbol 7).2.addSymbolReference
          (SymbolScope.new.getTextSymbol 7).1
        let sc2 ← sc1.removeSymbolReference (SymbolScope.new.getTextSymbol 7).1
        (sc2.recycleSymbol (SymbolScope.new.getTextSymbol 7).1).map
          fun sc3 : SymbolScope =>
            sc3.getSymbolRecord (SymbolScope.new.getTextSymbol 7).1)
      = .ok none) := by
  refine ⟨?_, ?_, by rfl, by rfl, by rfl⟩
  · constructor
    · rintro ⟨sc2, h⟩
      unfold SymbolScope.recycleSymbol at h
      by_cases hn : memL sc.symbolNursery s
      · simp [hn] at h
      · simp only [hn, Bool.false_eq_true, if_false] at h
        cases hr : lookupA sc.symbolReferences s with
        | some c => simp [hr] at h
        | none =>
          cases hrec : lookupA sc.symbolRecords s with
          | none => simp [hr, hrec] at h
          | some record =>
            exact ⟨by simpa using hn, rfl, by simp⟩
    · rintro ⟨hn, hr, hrec⟩
      cases hrec2 : lookupA sc.symbolRecords s with
      | none => simp [hrec2] at hrec
      | some record =>
        cases record with
        | textSymbol text =>
          exact ⟨{ sc with
                   textSymbols := removeA sc.textSymbols text
                   symbolRecords := removeA sc.symbolRecords s },
            by simp [SymbolScope.recycleSymbol, hn, hr, hrec2]⟩
        | valueSymbol value =>
          exact ⟨{ sc with
                   valueSymbols := removeA sc.valueSymbols value
                   symbolRecords := removeA sc.symbolRecords s },
            by simp [SymbolScope.recycleSymbol, hn, hr, hrec2]⟩
  · intro sc2 h
    unfold SymbolScope.recycleSymbol at h
    by_cases hn : memL sc.symbolNursery s
    · simp [hn] at h
    · simp only [hn, Bool.false_eq_true, if_false] at h
      cases hr : lookupA sc.symbolReferences s with
      | some c => simp [hr] at h
      | none =>
        cases hrec : lookupA sc.symbolRecords s with
        | none => simp [hr, hrec] at h
        | some record =>
          cases record with
          | textSymbol text =>
            simp only [hr, hrec] at h
            cases h
            simp [SymbolScope.getSymbolRecord, lookupA_removeA]
          | valueSymbol value =>
            simp only [hr, hrec] at h
            cases h
            simp [SymbolScope.getSymbolRecord, lookupA_removeA]

/-- Witness for C5: the contract applied to a concrete scope holding one
mature interned symbol (not in the nursery, no recorded references). -/
theorem recycle_symbol_contract_witness :
    (∃ sc2, scC5.recycleSymbol ⟨1⟩ = .ok sc2) ∧
    scC5.recycleSymbol ⟨1⟩ = .ok scC5res ∧
    scC5res.getSymbolRecord ⟨1⟩ = none :=
  ⟨(recycle_symbol_contract scC5 ⟨1⟩).1.2 ⟨by decide, by decide, by decide⟩,
   by rfl,
   (recycle_symbol_contract scC5 ⟨1⟩).2.1 scC5res (by rfl)⟩

/-- C6.  `FieldShortcuts::get_field(template_id, version, index)` returns
`(None, false)` with the state untouched when `template_id` differs from the
current template's id; when the recorded version differs from the template's
current version it zeroes the presence bitmap, stores the current version
and returns `(None, true)`; and it yields `Some` of the cached value only
when the recorded version, the template's version and the caller's version
all agree and the bitmap bit at `index` is set.  On the template side,
`add_symbol` never changes the version counter and `remove_symbol` bumps it
by one modulo `2^16`. -/
theorem field_shortcut_staleness_contract (fs : FieldShortcuts)
    (t : FieldTemplate) (s : Symbol) (templateId version index : Nat) :
    (fs.template.id ≠ templateId →
      fs.getField templateId version index = (none, false, fs)) ∧
    (fs.template.id = templateId → fs.version ≠ fs.template.version →
      fs.getField templateId version index
        = (none, true, { fs with bitmap := 0, version := fs.template.version })) ∧
    (∀ v, (fs.getField templateId version index).1 = some v →
      fs.template.id = templateId ∧ fs.version = fs.template.version ∧
      fs.template.version = version ∧ fs.bitmap / 2 ^ index % 2 = 1 ∧
      v = fs.fields index) ∧
    (∀ i t2, t.addSymbol s = .ok (i, t2) → t2.version = t.version) ∧
    (∀ t2, t.removeSymbol s = .ok t2 →
      t2.version = (t.version + 1) % 2 ^ 16) := by
  refine ⟨?_, ?_, ?_, ?_, ?_⟩
  · intro hid
    simp [FieldShortcuts.getField, hid]
  · intro hid hver
    simp [FieldShortcuts.getField, hid, hver]
  · intro v h
    by_cases hid : fs.template.id = templateId
    · by_cases hver : fs.version = fs.template.version
      · by_cases hcond :
          (fs.template.version = version) ∧ (fs.bitmap / 2 ^ index % 2 = 1)
        · refine ⟨hid, hver, hcond.1, hcond.2, ?_⟩
          simp [FieldShortcuts.getField, hid, hver, hcond.1, hcond.2] at h
          exact h.symm
        · exfalso
          rw [not_and_or] at hcond
          cases hcond with
          | inl hv =>
            simp [FieldShortcuts.getField, hid, hver, hv] at h
          | inr hb =>
            simp [FieldShortcuts.getField, hid, hver, hb] at h
      · exfalso
        simp [FieldShortcuts.getField, hid, hver] at h
    · exfalso
      simp [FieldShortcuts.getField, hid] at h
  · intro i t2 h
    unfold FieldTemplate.addSymbol at h
    by_cases hfull : t.fields.length ≥ maxShortcutsSize
    · simp [hfull] at h
    · simp only [hfull, if_false] at h
      by_cases hdup : (lookupA t.fields s).isSome
      · simp [hdup] at h
      · simp only [hdup, Bool.false_eq_true, if_false] at h
        by_cases hidx : FieldTemplate.findFreeIndex t.bitmap 64 0 ≥ 64
        · simp [hidx] at h
        · simp only [hidx, if_false] at h
          cases h
          rfl
  · intro t2 h
    unfold FieldTemplate.removeSymbol at h
    cases hl : lookupA t.fields s with
    | none => simp [hl] at h
    | some i =>
      simp only [hl] at h
      cases h
      rfl

/-- Witness for C6: the contract applied to a concrete shortcut cache over a
one-field template probed with a mismatched template id, and to the template
itself for the version effects of `add_symbol` and `remove_symbol`. -/
theorem field_shortcut_staleness_contract_witness :
    fsC6.getField 9 1 0 = (none, false, fsC6) ∧
    (fsC6.getField fsC6.template.id 1 0).1 = some (fsC6.fields 0) ∧
    tC6.addSymbol ⟨2⟩ = .ok (1, tC6added) ∧
    tC6added.version = tC6.version ∧
    tC6.removeSymbol ⟨1⟩ = .ok tC6removed ∧
    tC6removed.version = (tC6.version + 1) % 2 ^ 16 :=
  have h1 := field_shortcut_staleness_contract fsC6 tC6 ⟨2⟩ 9 1 0
  have h2 := field_shortcut_staleness_contract fsC6 tC6 ⟨1⟩ 9 1 0
  ⟨h1.1 (by decide), by decide, by rfl,
   h1.2.2.2.1 1 tC6added (by rfl),
   by rfl,
   h2.2.2.2.2 tC6removed (by rfl)⟩

end Rogiso
